import Mathlib

/-!
Verification of the ThorMail delivery-adapter layer.

This file shallowly embeds the core of the ThorMail ecosystem repository:
the resilient request engine of the JS client SDK (`ThorMailClient`), the
per-provider adapters (Resend, OneSignal, Mandrill, SMTP) with their error
classifiers, idempotency-key derivation, webhook verification and event
normalization.  JavaScript numbers that the code only ever uses as integers
are modelled as `Int`/`Nat`; the backoff computation, which genuinely uses
fractional arithmetic and `Math.random()`, is modelled over `ℚ` with the
random draw as an explicit parameter.  JS `undefined`/missing object fields
are modelled as `Option`, JS exceptions as `Except`, and outbound network
activity as explicit outcome parameters (oracles) supplied to each function.
The `crypto` primitives the code calls (SHA-1, SHA-256, HMAC, base64) are
implemented here in full.
-/

namespace ThorMail

/-! ## JavaScript-flavoured string and number helpers -/

/-- JS string truthiness: `undefined`, `null` and the empty string are falsy. -/
def jsStrTruthy : Option String → Bool
  | some s => s ≠ ""
  | none => false

/-- JS `a || b` on an optional string with a string default. -/
def jsStrOrD (a : Option String) (d : String) : String :=
  match a with
  | some s => if s = "" then d else s
  | none => d

/-- JS `a || b` keeping the option: first truthy value wins. -/
def jsStrOr (a b : Option String) : Option String :=
  match a with
  | some s => if s = "" then b else some s
  | none => b

/-- JS `a || b` on optional numbers: `null`, `0` and `NaN` (modelled as
`none`) fall through to the second operand. -/
def jsIntOr (a b : Option Int) : Option Int :=
  match a with
  | some n => if n = 0 then b else some n
  | none => b

/-- JS-style whitespace trim, charwise (kernel-reducible, unlike
`String.trim`). -/
def jsTrim (s : String) : String :=
  String.mk (((s.data.dropWhile Char.isWhitespace).reverse.dropWhile Char.isWhitespace).reverse)

/-- Charwise lowercasing, as `String.prototype.toLowerCase` on ASCII. -/
def jsToLower (s : String) : String :=
  String.mk (s.data.map Char.toLower)

/-- `String.prototype.startsWith`. -/
def jsStartsWith (s pre2 : String) : Bool :=
  pre2.data.isPrefixOf s.data

/-- Does `l` contain `sub` as a contiguous sublist? -/
def hasSublist (sub : List Char) : List Char → Bool
  | [] => sub.isPrefixOf []
  | c :: rest => sub.isPrefixOf (c :: rest) || hasSublist sub rest

/-- Split on a separator, accumulating the current chunk in reverse; the
first argument is structural fuel (one unit per consumed character, so
`length + 1` always suffices for a non-empty separator). -/
def jsSplitAux (sep : List Char) : Nat → List Char → List Char → List (List Char)
  | 0, _, cur => [cur.reverse]
  | _ + 1, [], cur => [cur.reverse]
  | fuel + 1, c :: rest, cur =>
    if sep.isPrefixOf (c :: rest) then
      cur.reverse :: jsSplitAux sep fuel (List.drop (sep.length - 1) rest) []
    else jsSplitAux sep fuel rest (c :: cur)

/-- `String.prototype.split` with a non-regex separator. -/
def jsSplit (s sep : String) : List String :=
  if sep = "" then s.data.map (fun c => String.mk [c])
  else (jsSplitAux sep.data (s.data.length + 1) s.data []).map String.mk

/-- `String.prototype.replace` with a global separator pattern
(split-and-join). -/
def jsStringReplace (s pat repl : String) : String :=
  String.intercalate repl (jsSplit s pat)

/-- JS `parseInt(s, 10)`: skip whitespace, read an optional sign and a
maximal digit run; `NaN` (no digits at all) is modelled as `none`. -/
def jsParseInt (s : String) : Option Int :=
  let t := (jsTrim s).data
  let core : List Char → Option Int := fun cs =>
    let digits := cs.takeWhile Char.isDigit
    if digits = [] then none
    else some (Int.ofNat (digits.foldl (fun acc c => acc * 10 + (c.toNat - 48)) 0))
  match t with
  | '-' :: rest => (core rest).map (fun n => -n)
  | '+' :: rest => core rest
  | cs => core cs

/-- JS `String.prototype.includes`. -/
def jsIncludes (s sub : String) : Bool :=
  hasSublist sub.data s.data

/-- First value in an association list under a given key, i.e. a JS object
property access on an object modelled as an association list. -/
def jsGetKey (l : List (String × String)) (k : String) : Option String :=
  (l.find? (fun kv => kv.1 = k)).map (·.2)

/-! ## Bytes, hex and base64 -/

/-- UTF-8 encoding of one character, as naturals. -/
def charUtf8Bytes (c : Char) : List Nat :=
  let n := c.toNat
  if n < 128 then [n]
  else if n < 2048 then [192 + n / 64, 128 + n % 64]
  else if n < 65536 then [224 + n / 4096, 128 + (n / 64) % 64, 128 + n % 64]
  else [240 + n / 262144, 128 + (n / 4096) % 64, 128 + (n / 64) % 64, 128 + n % 64]

/-- UTF-8 bytes of a string, as naturals. -/
def strBytes (s : String) : List Nat :=
  s.data.flatMap charUtf8Bytes

/-- Lowercase hex digits. -/
def hexDigitChars : List Char :=
  "0123456789abcdef".data

/-- Hex digit for a nibble (total, defaulting inside the hex alphabet). -/
def hexDigit (n : Nat) : Char :=
  hexDigitChars.getD n 'f'

/-- Two hex characters of a byte. -/
def byteToHex (b : Nat) : List Char :=
  [hexDigit (b / 16 % 16), hexDigit (b % 16)]

/-- Lowercase hex rendering of a byte list. -/
def bytesToHexChars (bs : List Nat) : List Char :=
  bs.flatMap byteToHex

/-- Base64 alphabet. -/
def b64Chars : List Char :=
  "ABCDEFGHIJKLMNOPQRSTUVWXYZabcdefghijklmnopqrstuvwxyz0123456789+/".data

/-- Base64-encode a byte list (with padding), as Node's
`Buffer.prototype.toString('base64')`. -/
def base64Encode : List Nat → List Char
  | [] => []
  | [a] =>
    [b64Chars.getD (a / 4 % 64) 'A', b64Chars.getD (a % 4 * 16) 'A', '=', '=']
  | [a, b] =>
    [b64Chars.getD (a / 4 % 64) 'A', b64Chars.getD (a % 4 * 16 + b / 16 % 16) 'A',
     b64Chars.getD (b % 16 * 4) 'A', '=']
  | a :: b :: c :: rest =>
    b64Chars.getD (a / 4 % 64) 'A' :: b64Chars.getD (a % 4 * 16 + b / 16 % 16) 'A' ::
    b64Chars.getD (b % 16 * 4 + c / 64 % 4) 'A' :: b64Chars.getD (c % 64) 'A' ::
    base64Encode rest

/-- Value of one base64 alphabet character. -/
def b64Val (c : Char) : Option Nat :=
  b64Chars.indexOf? c

/-- Base64-decode (as Node's lenient `Buffer.from(s, 'base64')`: characters
outside the alphabet and padding are ignored, a trailing partial quantum of
one character is dropped). -/
def base64Decode (s : String) : List Nat :=
  let vals := s.data.filterMap b64Val
  let rec go : List Nat → List Nat
    | a :: b :: c :: d :: rest => (a * 4 + b / 16) :: (b % 16 * 16 + c / 4) :: (c % 4 * 64 + d) :: go rest
    | [a, b, c] => [a * 4 + b / 16, b % 16 * 16 + c / 4]
    | [a, b] => [a * 4 + b / 16]
    | _ => []
  go vals

/-! ## SHA-1 -/

/-- Truncation to a 32-bit word. -/
def u32 (n : Nat) : Nat := n % 4294967296

/-- 32-bit left rotation. -/
def rotl32 (k x : Nat) : Nat :=
  u32 ((x <<< k) ||| (x >>> (32 - k)))

/-- 32-bit right rotation. -/
def rotr32 (k x : Nat) : Nat :=
  u32 ((x >>> k) ||| (x <<< (32 - k)))

/-- Big-endian bytes of a 32-bit word. -/
def word32Bytes (w : Nat) : List Nat :=
  [(w >>> 24) % 256, (w >>> 16) % 256, (w >>> 8) % 256, w % 256]

/-- Big-endian bytes of a 64-bit word. -/
def word64Bytes (w : Nat) : List Nat :=
  [(w >>> 56) % 256, (w >>> 48) % 256, (w >>> 40) % 256, (w >>> 32) % 256,
   (w >>> 24) % 256, (w >>> 16) % 256, (w >>> 8) % 256, w % 256]

/-- Big-endian 32-bit words of a byte list (groups of four). -/
def bytesToWords32 : List Nat → List Nat
  | a :: b :: c :: d :: rest =>
    (((a % 256) <<< 24) ||| ((b % 256) <<< 16) ||| ((c % 256) <<< 8) ||| (d % 256)) :: bytesToWords32 rest
  | _ => []

/-- Merkle-Damgard padding shared by SHA-1 and SHA-256: a `0x80` byte, zeros
to 56 mod 64, then the bit length as a big-endian 64-bit word. -/
def shaPad (msg : List Nat) : List Nat :=
  let len := msg.length
  let padZeros := (64 - (len + 9) % 64) % 64
  msg ++ 128 :: List.replicate padZeros 0 ++ word64Bytes (8 * len)

/-- SHA-1 message-schedule extension: push words until 80 are present. -/
def sha1Extend : Nat → Array Nat → Array Nat
  | 0, w => w
  | n + 1, w =>
    let i := w.size
    sha1Extend n (w.push (rotl32 1
      (w.getD (i - 3) 0 ^^^ w.getD (i - 8) 0 ^^^ w.getD (i - 14) 0 ^^^ w.getD (i - 16) 0)))

/-- One SHA-1 round. -/
def sha1Round (w : Array Nat) (st : Nat × Nat × Nat × Nat × Nat) (i : Nat) :
    Nat × Nat × Nat × Nat × Nat :=
  let (a, b, c, d, e) := st
  let f :=
    if i < 20 then b &&& c ||| (4294967295 ^^^ b) &&& d
    else if i < 40 then b ^^^ c ^^^ d
    else if i < 60 then b &&& c ||| b &&& d ||| c &&& d
    else b ^^^ c ^^^ d
  let k :=
    if i < 20 then 1518500249
    else if i < 40 then 1859775393
    else if i < 60 then 2400959708
    else 3395469782
  let temp := u32 (rotl32 5 a + f + e + k + w.getD i 0)
  (temp, a, rotl32 30 b, c, d)

/-- One SHA-1 compression over a 64-byte block. -/
def sha1Block (h : Nat × Nat × Nat × Nat × Nat) (block : List Nat) :
    Nat × Nat × Nat × Nat × Nat :=
  let (h0, h1, h2, h3, h4) := h
  let w := sha1Extend 64 (List.toArray (bytesToWords32 block))
  let (a, b, c, d, e) := (List.range 80).foldl (sha1Round w) (h0, h1, h2, h3, h4)
  (u32 (h0 + a), u32 (h1 + b), u32 (h2 + c), u32 (h3 + d), u32 (h4 + e))

/-- Fold the compression over the 64-byte chunks of an (already padded)
message; the block count is the structural fuel. -/
def sha1Fold : Nat → Nat × Nat × Nat × Nat × Nat → List Nat → Nat × Nat × Nat × Nat × Nat
  | 0, h, _ => h
  | n + 1, h, l => sha1Fold n (sha1Block h (l.take 64)) (l.drop 64)

/-- SHA-1 digest (20 bytes) of a byte list. -/
def sha1Bytes (msg : List Nat) : List Nat :=
  let padded := shaPad msg
  let (h0, h1, h2, h3, h4) :=
    sha1Fold (padded.length / 64)
      (1732584193, 4023233417, 2562383102, 271733878, 3285377520) padded
  [h0, h1, h2, h3, h4].flatMap word32Bytes

/-- SHA-1 hex digest of a string, as `crypto.createHash('sha1')...digest('hex')`. -/
def sha1HexChars (s : String) : List Char :=
  bytesToHexChars (sha1Bytes (strBytes s))

/-! ## SHA-256 -/

/-- The 64 SHA-256 round constants. -/
def sha256K : List Nat :=
  [1116352408, 1899447441, 3049323471, 3921009573, 961987163, 1508970993,
   2453635748, 2870763221, 3624381080, 310598401, 607225278, 1426881987,
   1925078388, 2162078206, 2614888103, 3248222580, 3835390401, 4022224774,
   264347078, 604807628, 770255983, 1249150122, 1555081692, 1996064986,
   2554220882, 2821834349, 2952996808, 3210313671, 3336571891, 3584528711,
   113926993, 338241895, 666307205, 773529912, 1294757372, 1396182291,
   1695183700, 1986661051, 2177026350, 2456956037, 2730485921, 2820302411,
   3259730800, 3345764771, 3516065817, 3600352804, 4094571909, 275423344,
   430227734, 506948616, 659060556, 883997877, 958139571, 1322822218,
   1537002063, 1747873779, 1955562222, 2024104815, 2227730452, 2361852424,
   2428436474, 2756734187, 3204031479, 3329325298]

/-- SHA-256 message-schedule extension: push words until 64 are present. -/
def sha256Extend : Nat → Array Nat → Array Nat
  | 0, w => w
  | n + 1, w =>
    let i := w.size
    let s0 :=
      rotr32 7 (w.getD (i - 15) 0) ^^^ rotr32 18 (w.getD (i - 15) 0) ^^^ (w.getD (i - 15) 0 >>> 3)
    let s1 :=
      rotr32 17 (w.getD (i - 2) 0) ^^^ rotr32 19 (w.getD (i - 2) 0) ^^^ (w.getD (i - 2) 0 >>> 10)
    sha256Extend n (w.push (u32 (w.getD (i - 16) 0 + s0 + w.getD (i - 7) 0 + s1)))

/-- One SHA-256 round. -/
def sha256Round (w : Array Nat)
    (st : Nat × Nat × Nat × Nat × Nat × Nat × Nat × Nat) (i : Nat) :
    Nat × Nat × Nat × Nat × Nat × Nat × Nat × Nat :=
  let (a, b, c, d, e, f, g, h) := st
  let bigS1 := rotr32 6 e ^^^ rotr32 11 e ^^^ rotr32 25 e
  let ch := e &&& f ^^^ (4294967295 ^^^ e) &&& g
  let temp1 := u32 (h + bigS1 + ch + sha256K.getD i 0 + w.getD i 0)
  let bigS0 := rotr32 2 a ^^^ rotr32 13 a ^^^ rotr32 22 a
  let maj := a &&& b ^^^ a &&& c ^^^ b &&& c
  let temp2 := u32 (bigS0 + maj)
  (u32 (temp1 + temp2), a, b, c, u32 (d + temp1), e, f, g)

/-- One SHA-256 compression over a 64-byte block. -/
def sha256Block (hs : List Nat) (block : List Nat) : List Nat :=
  let w := sha256Extend 48 (List.toArray (bytesToWords32 block))
  let h0 := fun i => hs.getD i 0
  let (a, b, c, d, e, f, g, h) := (List.range 64).foldl (sha256Round w)
    (h0 0, h0 1, h0 2, h0 3, h0 4, h0 5, h0 6, h0 7)
  [u32 (h0 0 + a), u32 (h0 1 + b), u32 (h0 2 + c), u32 (h0 3 + d),
   u32 (h0 4 + e), u32 (h0 5 + f), u32 (h0 6 + g), u32 (h0 7 + h)]

/-- Fold the SHA-256 compression over the 64-byte chunks; the block count is
the structural fuel. -/
def sha256Fold : Nat → List Nat → List Nat → List Nat
  | 0, hs, _ => hs
  | n + 1, hs, l => sha256Fold n (sha256Block hs (l.take 64)) (l.drop 64)

/-- SHA-256 digest (32 bytes) of a byte list. -/
def sha256Bytes (msg : List Nat) : List Nat :=
  let padded := shaPad msg
  (sha256Fold (padded.length / 64)
    [1779033703, 3144134277, 1013904242, 2773480762,
     1359893119, 2600822924, 528734635, 1541459225] padded).flatMap word32Bytes

/-- SHA-256 hex digest of a string. -/
def sha256HexChars (s : String) : List Char :=
  bytesToHexChars (sha256Bytes (strBytes s))

/-! ## HMAC -/

/-- HMAC over a 64-byte-block hash function. -/
def hmacBytes (hash : List Nat → List Nat) (key msg : List Nat) : List Nat :=
  let k0 := if key.length > 64 then hash key else key
  let k := k0 ++ List.replicate (64 - k0.length) 0
  hash ((k.map (fun b => b ^^^ 92)) ++ hash ((k.map (fun b => b ^^^ 54)) ++ msg))

/-- HMAC-SHA1, base64-encoded, as the Mandrill webhook verifier computes it. -/
def hmacSha1Base64 (key msg : String) : String :=
  String.mk (base64Encode (hmacBytes sha1Bytes (strBytes key) (strBytes msg)))

/-- HMAC-SHA256, base64-encoded, over raw key bytes, as the Resend (svix)
webhook verifier computes it. -/
def hmacSha256Base64 (key : List Nat) (msg : String) : String :=
  String.mk (base64Encode (hmacBytes sha256Bytes key (strBytes msg)))

/-! ## A small JSON value type (for `JSON.stringify` where its exact output
feeds a hash) -/

/-- JSON values. -/
inductive Json where
  | null : Json
  | bool (b : Bool) : Json
  | num (n : Int) : Json
  | str (s : String) : Json
  | arr (l : List Json) : Json
  | obj (fields : List (String × Json)) : Json
  deriving Repr, BEq

/-- JSON string escaping (quote, backslash, and common control characters). -/
def jsonEscape (s : String) : String :=
  String.mk (s.data.flatMap fun c =>
    if c = '"' then ['\\', '"']
    else if c = '\\' then ['\\', '\\']
    else if c = '\n' then ['\\', 'n']
    else if c = '\r' then ['\\', 'r']
    else if c = '\t' then ['\\', 't']
    else [c])

mutual

/-- Serialize a JSON value, as `JSON.stringify` (insertion order preserved). -/
def Json.render : Json → String
  | .null => "null"
  | .bool b => if b then "true" else "false"
  | .num n => toString n
  | .str s => "\"" ++ jsonEscape s ++ "\""
  | .arr l => "[" ++ String.intercalate "," (Json.renderList l) ++ "]"
  | .obj fields =>
    "\x7b" ++ String.intercalate "," (Json.renderFields fields) ++ "\x7d"

def Json.renderList : List Json → List String
  | [] => []
  | j :: rest => Json.render j :: Json.renderList rest

def Json.renderFields : List (String × Json) → List String
  | [] => []
  | kv :: rest =>
    ("\"" ++ jsonEscape kv.1 ++ "\":" ++ Json.render kv.2) :: Json.renderFields rest

end

/-! ## The uniform DeliveryResult

`ρ` is the provider-specific raw payload type carried in the informational
`response` field (each adapter instantiates it with its provider's response
shape). Every absent-in-JS field is an `Option` defaulting to `none`. -/

structure DeliveryResult (ρ : Type) where
  success : Bool
  id : Option String := none
  response : Option ρ := none
  error : Option String := none
  isTemporary : Option Bool := none
  pauseDuration : Option Int := none
  isLocalError : Option Bool := none
  /-- string-valued `errorCode` (Resend sets the provider error name). -/
  errorCode : Option String := none
  /-- numeric `errorCode` (Mandrill sets `errorBody.code || httpStatus`). -/
  errorCodeNum : Option Int := none
  message : Option String := none
  /-- `code` field set by the SMTP adapter catch handler. -/
  code : Option String := none
  deriving Repr, DecidableEq

/-- The canonical webhook event surfaced to the orchestrator. -/
structure WebhookEvent where
  status : String
  messageId : Option String := none
  timestamp : Option Int := none
  event : Option String := none
  deriving Repr, DecidableEq

/-- JS `Response.ok`: status in the inclusive range 200-299. -/
def jsRespOk (status : Int) : Bool :=
  200 ≤ status && status ≤ 299

/-- The HTTP status codes both adapters' classifiers treat as temporary. -/
def tempStatusCodes : List Int := [429, 500, 502, 503, 504]

/-! ## Resend adapter: error classifier
(src/unnamed/part_007, `_handleResendError`) -/

/-- The JSON body of a Resend response, as far as the adapter reads it. -/
structure ResendBody where
  name : Option String := none
  code : Option String := none
  message : Option String := none
  id : Option String := none
  deriving Repr, DecidableEq

/-- Permanent (never-retry) Resend error names, verbatim from the adapter. -/
def resendPermanentErrors : List String :=
  ["validation_error", "missing_api_key", "invalid_api_key", "restricted_api_key",
   "invalid_from_address", "invalid_attachment", "invalid_parameter", "invalid_region",
   "missing_required_field", "not_found", "method_not_allowed", "invalid_access",
   "security_error", "concurrent_idempotent_requests"]

/-- Temporary (retryable) Resend error names, verbatim from the adapter. -/
def resendTemporaryErrors : List String :=
  ["rate_limit_exceeded", "daily_quota_exceeded", "monthly_quota_exceeded",
   "application_error", "internal_server_error"]

/-- `errorBody.name || errorBody.code || 'unknown_error'`. -/
def resendErrorName (b : ResendBody) : String :=
  jsStrOrD (jsStrOr b.name b.code) "unknown_error"

/-- The outbound `/emails` payload the Resend adapter builds (field order as
in the object literal plus later conditional assignments). -/
structure ResendTagOut where
  name : Option String := none
  value : Option String := none
  deriving Repr, DecidableEq

structure ResendAttachmentOut where
  filename : Option String := none
  content : Option String := none
  path : Option String := none
  content_id : Option String := none
  deriving Repr, DecidableEq

structure ResendPayload where
  /-- the JS `from` field (both `from` and `to` are reserved words in Lean,
  hence the trailing underscore / renamed field). -/
  sender : String
  /-- the JS `to` field. -/
  to_ : List String
  subject : Option String := none
  html : Option String := none
  headers : List (String × String) := []
  tags : Option (List ResendTagOut) := none
  text : Option String := none
  cc : Option (List String) := none
  bcc : Option (List String) := none
  reply_to : Option String := none
  attachments : List ResendAttachmentOut := []
  deriving Repr, DecidableEq

/-- Optional field of a JSON object: `undefined` values are skipped by
`JSON.stringify`. -/
def jsonOptField (k : String) (v : Option Json) : List (String × Json) :=
  match v with
  | some j => [(k, j)]
  | none => []

/-- `JSON.stringify` image of the built payload (key insertion order:
the literal keys `from,to,subject,html,headers,tags`, then conditionally
assigned `text,cc,bcc,reply_to`, then `attachments`). -/
def resendPayloadJson (p : ResendPayload) : Json :=
  Json.obj (
    [("from", Json.str p.sender), ("to", Json.arr (p.to_.map Json.str))] ++
    jsonOptField "subject" (p.subject.map Json.str) ++
    jsonOptField "html" (p.html.map Json.str) ++
    [("headers", Json.obj (p.headers.map fun kv => (kv.1, Json.str kv.2)))] ++
    jsonOptField "tags" (p.tags.map fun ts => Json.arr (ts.map fun t =>
      Json.obj (jsonOptField "name" (t.name.map Json.str) ++
                jsonOptField "value" (t.value.map Json.str)))) ++
    jsonOptField "text" (p.text.map Json.str) ++
    jsonOptField "cc" ((p.cc.map fun l => Json.arr (l.map Json.str))) ++
    jsonOptField "bcc" ((p.bcc.map fun l => Json.arr (l.map Json.str))) ++
    jsonOptField "reply_to" (p.reply_to.map Json.str) ++
    [("attachments", Json.arr (p.attachments.map fun a =>
      Json.obj (jsonOptField "filename" (a.filename.map Json.str) ++
                jsonOptField "content" (a.content.map Json.str) ++
                jsonOptField "path" (a.path.map Json.str) ++
                jsonOptField "content_id" (a.content_id.map Json.str))))])

/-- Centralized Resend error handler `_handleResendError(errorBody,
httpStatus, headers, payloadContext)`.  `retryAfterHeader` is
`headers.get('Retry-After')`; `now` is `Date.now()`. -/
def handleResendError (errorBody : ResendBody) (httpStatus : Int)
    (retryAfterHeader : Option String) (payloadContext : Option ResendPayload)
    (now : Int) : DeliveryResult ResendBody :=
  let errorName := resendErrorName errorBody
  let message := jsStrOrD errorBody.message "An unknown error occurred."
  let isTemporary0 :=
    resendTemporaryErrors.contains errorName || tempStatusCodes.contains httpStatus
  let isTemporary :=
    if resendPermanentErrors.contains errorName then false else isTemporary0
  let response : DeliveryResult ResendBody :=
    { success := false
      error := some (errorName ++ ": " ++ message)
      isTemporary := some isTemporary
      errorCode := some errorName }
  let response :=
    if httpStatus = 429 ||
        ["rate_limit_exceeded", "daily_quota_exceeded", "monthly_quota_exceeded"].contains errorName then
      let pauseDuration : Option Int :=
        if errorName = "daily_quota_exceeded" then some 3600
        else if errorName = "monthly_quota_exceeded" then some 86400
        else match retryAfterHeader with
          | some ra => if ra = "" then some 60 else jsParseInt ra
          | none => some 60
      { response with pauseDuration := pauseDuration }
    else response
  if errorName = "concurrent_idempotent_requests" then
    let generatedId :=
      match payloadContext with
      | some p =>
        "concurrent_id_" ++ String.mk ((sha256HexChars (resendPayloadJson p).render).take 16)
      | none => "concurrent-idempotency-" ++ toString now
    { success := true
      id := some generatedId
      message := some "Request in progress (Concurrent), Must be validated in your resend dashboard"
      isTemporary := some false }
  else if errorName = "invalid_idempotent_request" then
    { response with isTemporary := some false, message := some "Idempotency key is invalid" }
  else response

/-! ## Mandrill adapter: error classifier
(src/Adapters/thormail-adapter-mandrill-email/index.js, `_handleMandrillError`) -/

/-- A Mandrill JSON object as far as the adapter reads it: error-glossary
fields and per-recipient send-result fields share one duck-typed shape. -/
structure MandrillObj where
  status : Option String := none
  name : Option String := none
  message : Option String := none
  code : Option Int := none
  _id : Option String := none
  reject_reason : Option String := none
  deriving Repr, DecidableEq

/-- A Mandrill response body: the send endpoint answers with an array of
per-recipient results, errors answer with an object. -/
inductive MandrillData where
  | arr (l : List MandrillObj)
  | obj (o : MandrillObj)
  deriving Repr, DecidableEq

/-- Property reads on a possibly-array response body (an array has none of
these properties, so they are `undefined`). -/
def MandrillData.nameField : MandrillData → Option String
  | .obj o => o.name
  | .arr _ => none

def MandrillData.messageField : MandrillData → Option String
  | .obj o => o.message
  | .arr _ => none

def MandrillData.codeField : MandrillData → Option Int
  | .obj o => o.code
  | .arr _ => none

def MandrillData.statusField : MandrillData → Option String
  | .obj o => o.status
  | .arr _ => none

/-- Permanent (never-retry) Mandrill error names, verbatim from the adapter. -/
def mandrillPermanentErrors : List String :=
  ["ValidationError", "Invalid_Key", "Invalid_Reject", "Unknown_Message",
   "Unknown_Template", "Unknown_Subaccount", "Unknown_Sender", "Unknown_Url",
   "Unknown_TrackingDomain", "Unknown_Webhook", "Unknown_InboundDomain",
   "Unknown_InboundRoute", "Unknown_Export", "Invalid_CustomDNS",
   "Invalid_CustomDNSPending", "Invalid_Sender", "Invalid_Template",
   "Invalid_Tag_Name"]

/-- Temporary (retryable) Mandrill error names, verbatim from the adapter. -/
def mandrillTemporaryErrors : List String :=
  ["GeneralError", "ServiceUnavailable", "PaymentRequired"]

/-- `errorBody.name || 'Unknown'`. -/
def mandrillErrorName (b : MandrillData) : String :=
  jsStrOrD b.nameField "Unknown"

/-- Centralized Mandrill error handler `_handleMandrillError(errorBody,
httpStatus)`. -/
def handleMandrillError (errorBody : MandrillData) (httpStatus : Int) :
    DeliveryResult MandrillObj :=
  let errorName := mandrillErrorName errorBody
  let message := jsStrOrD errorBody.messageField "An unknown error occurred."
  let code := jsIntOr errorBody.codeField (some httpStatus)
  let isTemporary0 :=
    mandrillTemporaryErrors.contains errorName || tempStatusCodes.contains httpStatus
  let isTemporary :=
    if mandrillPermanentErrors.contains errorName then false else isTemporary0
  let result : DeliveryResult MandrillObj :=
    { success := false
      error := some (errorName ++ ": " ++ message)
      isTemporary := some isTemporary
      errorCodeNum := code }
  if httpStatus = 429 then { result with pauseDuration := some 60 } else result

/-! ## Idempotency-key derivation -/

/-- Case-insensitive hex digit, i.e. the `[0-9a-f]` class under the `/i` flag. -/
def hexCharI (c : Char) : Bool :=
  "0123456789abcdefABCDEF".data.contains c

/-- The `[1-5]` class (UUID version position). -/
def uuidVersionChar (c : Char) : Bool :=
  ['1', '2', '3', '4', '5'].contains c

/-- The `[89ab]` class under `/i` (UUID variant position). -/
def uuidVariantChar (c : Char) : Bool :=
  ['8', '9', 'a', 'b', 'A', 'B'].contains c

/-- Consume exactly `n` characters satisfying `p`. -/
def matchSeg (p : Char → Bool) : Nat → List Char → Option (List Char)
  | 0, rest => some rest
  | n + 1, c :: rest => if p c then matchSeg p n rest else none
  | _ + 1, [] => none

/-- Consume a literal hyphen. -/
def matchDash : List Char → Option (List Char)
  | '-' :: r => some r
  | _ => none

/-- Anchored match of the 8-4-4-4-12 UUID pattern, with the class of the
version and variant positions as parameters. -/
def uuidPattern (ver variant : Char → Bool) (cs : List Char) : Bool :=
  match (((((((((matchSeg hexCharI 8 cs).bind matchDash).bind
      (matchSeg hexCharI 4)).bind matchDash).bind
      (matchSeg ver 1)).bind (matchSeg hexCharI 3)).bind matchDash).bind
      (matchSeg variant 1)).bind (matchSeg hexCharI 3)).bind matchDash |>.bind
      (matchSeg hexCharI 12) with
  | some [] => true
  | _ => false

/-- The OneSignal adapter's UUID regex
`/^[0-9a-f]\x7b8\x7d-[0-9a-f]\x7b4\x7d-[1-5][0-9a-f]\x7b3\x7d-[89ab][0-9a-f]\x7b3\x7d-[0-9a-f]\x7b12\x7d$/i`. -/
def uuidRegexTest (s : String) : Bool :=
  uuidPattern uuidVersionChar uuidVariantChar s.data

/-- The bare 8-4-4-4-12 hex shape, without the version/variant constraints. -/
def uuidShapeTest (s : String) : Bool :=
  uuidPattern hexCharI hexCharI s.data

/-- OneSignal idempotency-key derivation: pass the key through when it already
matches the UUID regex, otherwise format its SHA-1 hex digest as 8-4-4-4-12
(substrings (0,8)(8,12)(12,16)(16,20)(20,32) of the 40-char digest). -/
def oneSignalIdempotencyKey (k : String) : String :=
  if uuidRegexTest k then k
  else
    let hash := sha1HexChars k
    String.mk (hash.take 8 ++ '-' :: ((hash.drop 8).take 4) ++ '-' ::
      ((hash.drop 12).take 4) ++ '-' :: ((hash.drop 16).take 4) ++ '-' ::
      ((hash.drop 20).take 12))

/-- Resend idempotency-key derivation: the SHA-1 hex digest of the key is the
`Idempotency-Key` header value. -/
def resendIdempotencyKey (k : String) : String :=
  String.mk (sha1HexChars k)

/-! ## Resend adapter: sendMail
(src/unnamed/part_007, `sendMail` / `_request`) -/

structure ResendConfig where
  apiKey : String
  fromEmail : String
  fromName : Option String := none
  webhookSigningSecret : Option String := none
  deriving Repr

/-- A caller-supplied tag (`t.Name || t.name`, `t.Value || t.value`). -/
structure ResendTagIn where
  Name : Option String := none
  name : Option String := none
  Value : Option String := none
  value : Option String := none
  deriving Repr, DecidableEq

/-- A caller-supplied attachment. `path` is modelled as string-or-absent (the
code additionally tolerates non-string `path` values by skipping the check and
dropping them from the outbound `path`). -/
structure ResendAttachmentIn where
  filename : Option String := none
  content : Option String := none
  path : Option String := none
  contentId : Option String := none
  content_id : Option String := none
  cid : Option String := none
  deriving Repr, DecidableEq

structure ResendData where
  headers : List (String × String) := []
  tags : Option (List ResendTagIn) := none
  text : Option String := none
  cc : Option (List String) := none
  bcc : Option (List String) := none
  replyTo : Option String := none
  attachments : Option (List ResendAttachmentIn) := none
  deriving Repr

/-- The `sendMail` destructured argument (`to` is modelled in its array
form; the code wraps a lone string into a one-element array). -/
structure ResendInput where
  to_ : List String
  subject : Option String := none
  body : Option String := none
  data : Option ResendData := none
  idempotencyKey : Option String := none
  deriving Repr

/-- The security check on one attachment: a truthy string `path` whose
lowercased form starts with neither `http://` nor `https://` is rejected. -/
def resendAttachmentBad (att : ResendAttachmentIn) : Bool :=
  match att.path with
  | some p => p ≠ "" && !(jsStartsWith (jsToLower p) "http://" || jsStartsWith (jsToLower p) "https://")
  | none => false

/-- The security-error message thrown inside the attachment `.map`. -/
def attachmentSecurityMessage : String :=
  "Security Error: Local file paths are not allowed. Use \x27path\x27 or \x27href\x27 with a valid URL."

/-- The attachment `.map` of the Resend adapter: throws (models as `.error`)
at the first offending attachment, otherwise re-encodes each entry. -/
def resendMapAttachments : List ResendAttachmentIn → Except String (List ResendAttachmentOut)
  | [] => .ok []
  | att :: rest =>
    if resendAttachmentBad att then .error attachmentSecurityMessage
    else
      (resendMapAttachments rest).map (fun outs =>
        { filename := att.filename
          content := match att.content with
            | some c => if c = "" then none else some (String.mk (base64Encode (strBytes c)))
            | none => none
          path := att.path
          content_id := jsStrOr att.contentId (jsStrOr att.content_id att.cid) } :: outs)

/-- What the network returns for the single `fetch` of `_request`. -/
inductive ResendOutcome where
  | netErr (msg : String)
  | resp (status : Int) (body : ResendBody) (retryAfter : Option String)
  deriving Repr

/-- A Resend outcome that is a provider/network failure (a rejected `fetch` or
a non-2xx response). -/
def resendOutcomeFails : ResendOutcome → Bool
  | .netErr _ => true
  | .resp status _ _ => !jsRespOk status

/-- What `_request` evaluates to: either a result object carrying a `success`
flag (a failure, or the classifier's concurrent-idempotency success, neither
of which has a `data` property) or `{success:true, data}`. -/
inductive ResendReqRet where
  | res (r : DeliveryResult ResendBody)
  | okData (data : ResendBody)

/-- `_request('POST', endpoint, payload, options)`: a rejected `fetch` becomes
a temporary network-error result, a non-2xx response goes through
`_handleResendError`, a 2xx response yields its parsed body. -/
def resendRequest (oc : ResendOutcome) (payload : ResendPayload) (now : Int) : ResendReqRet :=
  match oc with
  | .netErr m =>
    .res { success := false, error := some ("Network Error: " ++ m), isTemporary := some true }
  | .resp status body retryAfter =>
    if !jsRespOk status then .res (handleResendError body status retryAfter (some payload) now)
    else .okData body

/-- Build the `from` display string (`"name" <email>` when a from-name is
configured). -/
def buildFromStr (fromName : Option String) (fromEmail : String) : String :=
  match fromName with
  | some n => if n = "" then fromEmail else "\"" ++ n ++ "\" <" ++ fromEmail ++ ">"
  | none => fromEmail

/-- The Resend `sendMail`, with the network modelled as an oracle from the
built payload to a `fetch` outcome and `Date.now()` as a parameter.  The
second component counts `fetch` calls issued (0 when the body of the `try`
throws before `_request`).  Every failure — including the exception the
security check throws and the `result.data.id` read on the classifier's
data-less concurrent-idempotency result — is caught and converted, so the
function is total into `DeliveryResult`. -/
def resendSendMail (cfg : ResendConfig) (inp : ResendInput)
    (net : ResendPayload → ResendOutcome) (now : Int) :
    DeliveryResult ResendBody × Nat :=
  let sender := buildFromStr cfg.fromName cfg.fromEmail
  match inp.data with
  | none =>
    -- `data.attachments` on `undefined` throws before any request is issued
    ({ success := false
       error := some "Unexpected Error: Cannot read properties of undefined (reading \x27attachments\x27)"
       isTemporary := some true }, 0)
  | some d =>
    let headers := d.headers
    let tags : List ResendTagOut :=
      match d.tags with
      | some ts => ts.map (fun t => { name := jsStrOr t.Name t.name, value := jsStrOr t.Value t.value })
      | none => []
    let payload0 : ResendPayload :=
      { sender := sender
        to_ := inp.to_
        subject := inp.subject
        html := inp.body
        headers := headers
        tags := if tags.length > 0 then some tags else none }
    let payload1 :=
      { payload0 with
        text := match d.text with | some t => if t = "" then none else some t | none => none
        cc := d.cc
        bcc := d.bcc
        reply_to :=
          match d.replyTo with
          | some r => if r = "" then jsStrOr (jsGetKey headers "Reply-To") none else some r
          | none => jsStrOr (jsGetKey headers "Reply-To") none }
    match d.attachments with
    | some atts =>
      (match resendMapAttachments atts with
       | .error msg =>
         ({ success := false, error := some ("Unexpected Error: " ++ msg), isTemporary := some true }, 0)
       | .ok outs =>
         let payload := { payload1 with attachments := outs }
         resendSendMailRequest cfg payload inp.idempotencyKey net now)
    | none =>
      let payload := { payload1 with attachments := [] }
      resendSendMailRequest cfg payload inp.idempotencyKey net now

where
  /-- the tail of `sendMail` from the `_request` call on. -/
  resendSendMailRequest (_cfg : ResendConfig) (payload : ResendPayload)
      (idempotencyKey : Option String) (net : ResendPayload → ResendOutcome) (now : Int) :
      DeliveryResult ResendBody × Nat :=
    -- the Idempotency-Key header derivation (observable only by the provider)
    let _idemHeader : Option String :=
      match idempotencyKey with
      | some k => if k = "" then none else some (resendIdempotencyKey k)
      | none => none
    match resendRequest (net payload) payload now with
    | .res r =>
      if !r.success then (r, 1)
      else
        -- `result.data` is `undefined` on the concurrent-idempotency success
        -- object, so `result.data.id` throws and the catch converts it
        ({ success := false
           error := some "Unexpected Error: Cannot read properties of undefined (reading \x27id\x27)"
           isTemporary := some true }, 1)
    | .okData data =>
      ({ success := true, id := data.id, response := some data, isTemporary := some false }, 1)

/-! ## OneSignal adapter: sendMail
(src/Adapters/thormail-adapter-onesignal/index.js) -/

structure OSConfig where
  appId : String
  apiKey : String
  fromEmail : String
  fromName : Option String := none
  webhookHeaderKey : Option String := none
  webhookHeaderValue : Option String := none
  deriving Repr

/-- The caller's `data` object: the provider-template escape hatch plus the
residual keys that get `Object.assign`ed onto the payload (kept abstract as
string pairs; `html` is already destructured away in the standard branch). -/
structure OSData where
  _useProviderTemplate : Bool := false
  _templateId : Option String := none
  extra : List (String × String) := []
  deriving Repr

/-- `data` may be an object or a plain string (the code checks
`typeof data === 'object'`). -/
inductive OSDataVal where
  | objD (d : OSData)
  | strD (s : String)
  deriving Repr

structure OSInput where
  to_ : String
  subject : Option String := none
  body : Option String := none
  data : Option OSDataVal := none
  idempotencyKey : Option String := none
  deriving Repr

/-- The `/notifications` payload the adapter builds. -/
structure OSPayload where
  app_id : String
  include_email_tokens : List String
  email_from_address : String
  email_from_name : Option String := none
  idempotency_key : Option String := none
  template_id : Option String := none
  email_subject : Option String := none
  email_body : Option String := none
  extra : List (String × String) := []
  deriving Repr

/-- Parsed body of a OneSignal response, as far as the adapter reads it
(`errors` is modelled in its array form). -/
structure OSBody where
  id : Option String := none
  errors : Option (List String) := none
  deriving Repr, DecidableEq

inductive OSOutcome where
  | netErr (msg : String)
  | resp (status : Int) (body : OSBody) (statusText : String) (retryAfter : Option String)
  deriving Repr

/-- A OneSignal outcome that is a provider/network failure. -/
def osOutcomeFails : OSOutcome → Bool
  | .netErr _ => true
  | .resp status _ _ _ => !jsRespOk status

/-- The error object OneSignal's `_request` throws. -/
structure OSError where
  message : String
  isRateLimit : Bool := false
  retryAfter : Option Int := none
  deriving Repr, DecidableEq

/-- OneSignal's `_request`: throws on rejected fetch and on any non-2xx
response (a dedicated rate-limit error on 429). -/
def oneSignalRequest : OSOutcome → Except OSError OSBody
  | .netErr m => .error { message := m }
  | .resp status body statusText retryAfter =>
    if jsRespOk status then .ok body
    else if status = 429 then
      .error
        { message := "OneSignal Rate Limit Exceeded."
          isRateLimit := true
          retryAfter :=
            match retryAfter with
            | some ra => if ra = "" then some 60 else jsParseInt ra
            | none => some 60 }
    else
      .error
        { message := "OneSignal API Error: " ++
            (match body.errors with
             | some l => String.intercalate ", " l
             | none => statusText) }

/-- Build the OneSignal payload, including the idempotency-key derivation and
the plain-text-to-HTML wrapping. -/
def oneSignalBuildPayload (cfg : OSConfig) (inp : OSInput) : OSPayload :=
  let payload0 : OSPayload :=
    { app_id := cfg.appId
      include_email_tokens := [inp.to_]
      email_from_address := cfg.fromEmail }
  let payload1 :=
    match cfg.fromName with
    | some n => if n = "" then payload0 else { payload0 with email_from_name := some n }
    | none => payload0
  let payload2 :=
    match inp.idempotencyKey with
    | some k =>
      if k = "" then payload1
      else { payload1 with idempotency_key := some (oneSignalIdempotencyKey k) }
    | none => payload1
  let useTemplate :=
    match inp.data with
    | some (.objD d) => d._useProviderTemplate && jsStrTruthy d._templateId
    | _ => false
  if useTemplate then
    match inp.data with
    | some (.objD d) => { payload2 with template_id := d._templateId, extra := d.extra }
    | _ => payload2
  else
    let htmlContent :=
      match inp.body with
      | some h =>
        if h ≠ "" && !(jsStartsWith (jsTrim h) "<") then
          some ("<div>" ++ (jsStringReplace h "\n" "<br>") ++ "</div>")
        else some h
      | none => none
    let p := { payload2 with email_subject := inp.subject, email_body := htmlContent }
    match inp.data with
    | some (.objD d) => { p with extra := d.extra }
    | _ => p

/-- The OneSignal `sendMail`: builds the payload, issues one request through
the oracle, and converts every thrown error in its catch handler; total into
`DeliveryResult`. -/
def oneSignalSendMail (cfg : OSConfig) (inp : OSInput) (net : OSPayload → OSOutcome) :
    DeliveryResult OSBody :=
  let payload := oneSignalBuildPayload cfg inp
  match oneSignalRequest (net payload) with
  | .ok result =>
    { success := true, id := result.id, response := some result, isTemporary := some false }
  | .error e =>
    if e.isRateLimit then
      { success := false
        error := some e.message
        isTemporary := some true
        pauseDuration := some (match e.retryAfter with
          | some n => if n = 0 then 60 else n
          | none => 60) }
    else
      { success := false
        error := some e.message
        isTemporary := some (jsIncludes e.message "timeout" || jsIncludes e.message "Network") }

/-! ## SMTP adapter: sendMail
(src/Adapters/thormail-adapter-smtp/index.js) -/

structure SmtpConfig where
  host : String := ""
  port : String := ""
  secure : Bool := false
  auth_user : String := ""
  auth_pass : String := ""
  fromEmail : String := ""
  fromName : Option String := none
  /-- `customHeaders`, modelled in its object form (`_parseHeaders` also
  accepts a `[\x7bkey,value\x7d]` array and a JSON string). -/
  customHeaders : Option (List (String × String)) := none
  deriving Repr

structure SmtpAttachment where
  path : Option String := none
  href : Option String := none
  deriving Repr, DecidableEq

structure SmtpData where
  attachments : Option (List SmtpAttachment) := none
  headers : Option (List (String × String)) := none
  text : Option String := none
  deriving Repr

structure SmtpInput where
  to_ : String
  subject : Option String := none
  body : Option String := none
  data : Option SmtpData := none
  idempotencyKey : Option String := none
  deriving Repr

/-- The error object nodemailer rejects with (or that the security check
throws). -/
structure SmtpError where
  message : String
  code : Option String := none
  responseCode : Option Int := none
  response : Option String := none
  deriving Repr, DecidableEq

/-- Outcome of `transporter.sendMail(mailOptions)`. -/
inductive SmtpOutcome where
  | sent (messageId : Option String) (response : Option String)
  | failed (e : SmtpError)
  deriving Repr

/-- The `mailOptions` object handed to nodemailer. -/
structure SmtpMailOptions where
  sender : String
  to_ : String
  subject : Option String := none
  html : Option String := none
  headers : List (String × String) := []
  attachments : List SmtpAttachment := []
  text : Option String := none
  deriving Repr

/-- The SMTP security check on one attachment: truthy string `path` (checked
first) or `href` outside `http://`/`https://`. -/
def smtpAttachmentBad (att : SmtpAttachment) : Bool :=
  (match att.path with
   | some p => p ≠ "" && !(jsStartsWith (jsToLower p) "http://" || jsStartsWith (jsToLower p) "https://")
   | none => false) ||
  (match att.href with
   | some h => h ≠ "" && !(jsStartsWith (jsToLower h) "http://" || jsStartsWith (jsToLower h) "https://")
   | none => false)

/-- The attachment `.map` of the SMTP adapter: throws the `E_SECURITY` /
553 error at the first offending attachment, otherwise passes entries
through unchanged. -/
def smtpBuildAttachments : List SmtpAttachment → Except SmtpError (List SmtpAttachment)
  | [] => .ok []
  | att :: rest =>
    if smtpAttachmentBad att then
      .error { message := attachmentSecurityMessage
               code := some "E_SECURITY"
               responseCode := some 553 }
    else (smtpBuildAttachments rest).map (att :: ·)

/-- Error codes the SMTP catch handler treats as network-level. -/
def smtpNetworkCodes : List String :=
  ["ETIMEDOUT", "ECONNRESET", "EPIPE", "ESOCKET", "ECONNECTION", "EDNS", "ENOTFOUND"]

/-- The SMTP adapter's catch handler: classify a thrown error into a failed
`DeliveryResult` (4xx and network codes temporary, auth and 5xx permanent,
`E_SECURITY` flagged as local). -/
def smtpCatch (e : SmtpError) : DeliveryResult String :=
  let isNetworkError :=
    match e.code with
    | some c => smtpNetworkCodes.contains c
    | none => false
  let isLocalError := e.code = some "E_SECURITY"
  let isSMTP4xx :=
    match e.responseCode with
    | some rc => decide (400 ≤ rc ∧ rc < 500)
    | none => false
  let isSMTP5xx :=
    match e.responseCode with
    | some rc => decide (500 ≤ rc)
    | none => false
  let isAuthError := e.code = some "EAUTH" || e.responseCode = some 535
  let isTemporary0 := isNetworkError || isSMTP4xx
  let isTemporary := if isAuthError || isSMTP5xx then false else isTemporary0
  let details :=
    match e.response with
    | some r => if r = "" then "" else " (" ++ r ++ ")"
    | none => ""
  { success := false
    error := some (e.message ++ details)
    code := e.code
    isTemporary := some isTemporary
    isLocalError := some isLocalError }

/-- The SMTP `sendMail`, with `transporter.sendMail` as an oracle on the built
mail options; the second component counts transporter calls (0 when the
security check or the `data.attachments` read throws first). -/
def smtpSendMail (cfg : SmtpConfig) (inp : SmtpInput) (net : SmtpMailOptions → SmtpOutcome) :
    DeliveryResult String × Nat :=
  match inp.data with
  | none =>
    (smtpCatch { message := "Cannot read properties of undefined (reading \x27attachments\x27)" }, 0)
  | some d =>
    let base : SmtpMailOptions :=
      { sender := buildFromStr cfg.fromName cfg.fromEmail
        to_ := inp.to_
        subject := inp.subject
        html := inp.body
        headers := cfg.customHeaders.getD [] }
    match (match d.attachments with
           | some l => smtpBuildAttachments l
           | none => .ok []) with
    | .error e => (smtpCatch e, 0)
    | .ok atts =>
      let mailOptions := { base with attachments := atts }
      let mailOptions :=
        { mailOptions with
          headers := match d.headers with | some hs => hs | none => mailOptions.headers
          text := match d.text with | some t => if t = "" then none else some t | none => none }
      match net mailOptions with
      | .sent mid resp =>
        ({ success := true, id := mid, response := resp, isTemporary := some false }, 1)
      | .failed e => (smtpCatch e, 1)

/-! ## Mandrill adapter: sendMail
(src/Adapters/thormail-adapter-mandrill-email/index.js) -/

structure MandrillConfig where
  apiKey : String
  fromEmail : String
  fromName : Option String := none
  subaccount : Option String := none
  webhookKey : Option String := none
  webhookUrl : Option String := none
  deriving Repr

/-- Caller-supplied attachment (`type`/`contentType`, `path`/`href`/`url`,
`cid`/`content_id`/`contentId`, `filename`/`name` aliases). -/
structure MandrillAttachmentIn where
  content : Option String := none
  type : Option String := none
  contentType : Option String := none
  path : Option String := none
  href : Option String := none
  url : Option String := none
  cid : Option String := none
  content_id : Option String := none
  contentId : Option String := none
  filename : Option String := none
  name : Option String := none
  deriving Repr, DecidableEq

/-- The `data` options of the Mandrill `sendMail` (tags modelled in their
plain-string form; merge vars and metadata kept abstract as string pairs). -/
structure MandrillDataIn where
  cc : Option (List String) := none
  bcc : Option (List String) := none
  replyTo : Option String := none
  headers : Option (List (String × String)) := none
  text : Option String := none
  subaccount : Option String := none
  tags : Option (List String) := none
  metadata : Option (List (String × String)) := none
  trackOpens : Option Bool := none
  trackClicks : Option Bool := none
  global_merge_vars : Option (List (String × String)) := none
  merge_vars : Option (List (String × String)) := none
  google_analytics_domains : Option (List String) := none
  google_analytics_campaign : Option String := none
  attachments : Option (List MandrillAttachmentIn) := none
  ip_pool : Option String := none
  send_at : Option String := none
  deriving Repr

structure MandrillInput where
  to_ : List String
  subject : Option String := none
  body : Option String := none
  /-- the destructuring default `data = \x7b\x7d` makes an absent `data`
  an empty object. -/
  data : Option MandrillDataIn := none
  idempotencyKey : Option String := none
  deriving Repr

structure MandrillRecipient where
  email : String
  rtype : String
  deriving Repr, DecidableEq

structure MandrillAttachmentOut where
  atype : String
  name : String
  content : Option String := none
  deriving Repr, DecidableEq

/-- The `message` object of the Mandrill send payload. -/
structure MandrillMessage where
  html : Option String := none
  subject : Option String := none
  from_email : String
  from_name : String
  to_ : List MandrillRecipient
  headers : List (String × String) := []
  important : Bool := false
  track_opens : Bool := true
  track_clicks : Bool := true
  auto_text : Bool := true
  auto_html : Bool := false
  inline_css : Bool := false
  url_strip_qs : Bool := false
  preserve_recipients : Bool := false
  view_content_link : Bool := false
  text : Option String := none
  subaccount : Option String := none
  tags : Option (List String) := none
  metadata : Option (List (String × String)) := none
  global_merge_vars : Option (List (String × String)) := none
  merge_vars : Option (List (String × String)) := none
  google_analytics_domains : Option (List String) := none
  google_analytics_campaign : Option String := none
  attachments : Option (List MandrillAttachmentOut) := none
  images : Option (List MandrillAttachmentOut) := none
  deriving Repr

/-- The full request payload (`async` is a Lean keyword-ish name, renamed). -/
structure MandrillPayload where
  message : MandrillMessage
  asyncSend : Bool := false
  ip_pool : Option String := none
  send_at : Option String := none
  deriving Repr

/-- Outcome of the `fetch` inside `_downloadAttachment`. -/
inductive DownloadOutcome where
  | ok (bytes : List Nat) (ctype : Option String)
  | httpFail (statusText : String)
  | netThrow (msg : String)
  deriving Repr

/-- Errors thrown while building the Mandrill request. -/
structure MandrillError where
  message : String
  code : Option String := none
  responseCode : Option Int := none
  deriving Repr, DecidableEq

/-- `_validateAttachmentUrl`: reject any URL not starting with `http://` or
`https://` (lowercased) with the `E_SECURITY` / 553 error. -/
def mandrillValidateAttachmentUrl (url : String) : Option MandrillError :=
  if !(jsStartsWith (jsToLower url) "http://" || jsStartsWith (jsToLower url) "https://") then
    some { message := "Security Error: Local file paths are not allowed. Use a valid HTTP/HTTPS URL."
           code := some "E_SECURITY"
           responseCode := some 553 }
  else none

/-- `_downloadAttachment`: fetch the URL, reject non-ok responses, base64 the
streamed bytes; content type falls back to `application/octet-stream`. -/
def mandrillDownloadAttachment (dl : String → DownloadOutcome) (url : String) :
    Except MandrillError (String × String) :=
  match dl url with
  | .netThrow m => .error { message := m }
  | .httpFail statusText =>
    .error { message := "Failed to download attachment: " ++ statusText }
  | .ok bytes ctype =>
    .ok (String.mk (base64Encode bytes), jsStrOrD ctype "application/octet-stream")

/-- `_isBase64`: Node's decode-then-re-encode round-trip test. -/
def jsIsBase64 (s : String) : Bool :=
  String.mk (base64Encode (base64Decode s)) = s

/-- Process the unified attachments list into (attachments, images), throwing
through `Except` on a security failure or a failed download. -/
def mandrillProcessAttachments (dl : String → DownloadOutcome) :
    List MandrillAttachmentIn →
    Except MandrillError (List MandrillAttachmentOut × List MandrillAttachmentOut)
  | [] => .ok ([], [])
  | att :: rest => do
    let type0 := jsStrOrD (jsStrOr att.type att.contentType) "application/octet-stream"
    let url := jsStrOr att.path (jsStrOr att.href att.url)
    let (content, ctype) ←
      match url with
      | some u =>
        (match mandrillValidateAttachmentUrl u with
         | some e => Except.error e
         | none =>
           (mandrillDownloadAttachment dl u).map (fun (c, t) =>
             (some c, jsStrOrD att.type t)))
      | none =>
        pure
          (match att.content with
           | some c =>
             if c ≠ "" && !jsIsBase64 c then some (String.mk (base64Encode (strBytes c)))
             else att.content
           | none => none,
           type0)
    let cid := jsStrOr att.cid (jsStrOr att.content_id att.contentId)
    let (atts, imgs) ← mandrillProcessAttachments dl rest
    match cid with
    | some c =>
      if c = "" then
        pure ({ atype := ctype, name := jsStrOrD (jsStrOr att.filename att.name) "attachment",
                content := content } :: atts, imgs)
      else pure (atts, { atype := ctype, name := c, content := content } :: imgs)
    | none =>
      pure ({ atype := ctype, name := jsStrOrD (jsStrOr att.filename att.name) "attachment",
              content := content } :: atts, imgs)

/-- Response of the one `fetch` in the Mandrill `_request`. -/
inductive MandrillOutcome where
  | netErr (msg : String)
  | resp (status : Int) (data : MandrillData)
  deriving Repr

/-- What the Mandrill `_request` evaluates to (it never throws: network
errors are returned as failure results). -/
inductive MandrillReqRet where
  | res (r : DeliveryResult MandrillObj)
  | okData (data : MandrillData)

/-- Mandrill `_request`: network failure becomes a temporary failure result;
a non-ok status or an `\x7bstatus:\x27error\x27\x7d` body goes through
`_handleMandrillError`. -/
def mandrillRequest (oc : MandrillOutcome) : MandrillReqRet :=
  match oc with
  | .netErr m =>
    .res { success := false, error := some ("Network Error: " ++ m), isTemporary := some true }
  | .resp status data =>
    if !jsRespOk status || data.statusField = some "error" then
      .res (handleMandrillError data status)
    else .okData data

/-- The Mandrill `sendMail`: build the message (downloading remote
attachments through the `dl` oracle), send through the `net` oracle, map the
first per-recipient result; the catch handler distinguishes `E_SECURITY`
(permanent, local) from all other thrown errors (temporary). -/
def mandrillSendMail (cfg : MandrillConfig) (inp : MandrillInput)
    (dl : String → DownloadOutcome) (net : MandrillPayload → MandrillOutcome) :
    DeliveryResult MandrillObj :=
  let d := inp.data.getD {}
  let message0 : MandrillMessage :=
    { html := inp.body
      subject := inp.subject
      from_email := cfg.fromEmail
      from_name := (cfg.fromName.getD "")
      to_ := inp.to_.map (fun e => { email := e, rtype := "to" }) ++
        (match d.cc with
         | some l => l.map (fun e => { email := e, rtype := "cc" })
         | none => []) ++
        (match d.bcc with
         | some l => l.map (fun e => { email := e, rtype := "bcc" })
         | none => [])
      -- `Object.assign` lets `data.headers` override the Reply-To entry;
      -- under first-match lookup that puts them in front
      headers :=
        (d.headers.getD []) ++
        (match d.replyTo with
         | some r => if r = "" then [] else [("Reply-To", r)]
         | none => []) }
  let message1 :=
    { message0 with
      text := match d.text with | some t => if t = "" then none else some t | none => none
      auto_text := !(match d.text with | some t => t ≠ "" | none => false)
      subaccount := jsStrOr d.subaccount cfg.subaccount
      tags := d.tags
      metadata := d.metadata
      track_opens := d.trackOpens.getD message0.track_opens
      track_clicks := d.trackClicks.getD message0.track_clicks
      global_merge_vars := d.global_merge_vars
      merge_vars := d.merge_vars
      google_analytics_domains := d.google_analytics_domains
      google_analytics_campaign := d.google_analytics_campaign }
  let buildRes :
      Except MandrillError MandrillMessage :=
    match d.attachments with
    | some atts =>
      (mandrillProcessAttachments dl atts).map (fun (outs, imgs) =>
        { message1 with
          attachments := if outs.length = 0 then none else some outs
          images := if imgs.length = 0 then none else some imgs })
    | none => .ok message1
  match buildRes with
  | .error e =>
    if e.code = some "E_SECURITY" then
      { success := false
        error := some e.message
        isTemporary := some false
        isLocalError := some true
        code := e.code }
    else
      { success := false
        error := some ("Unexpected Error: " ++ e.message)
        isTemporary := some true }
  | .ok message =>
    let payload : MandrillPayload :=
      { message := message, ip_pool := d.ip_pool, send_at := d.send_at }
    match mandrillRequest (net payload) with
    | .res r => r
    | .okData data =>
      let sendResult? :=
        match data with
        | .arr l => l.head?
        | .obj o => some o
      match sendResult? with
      | none =>
        -- `result.data[0]` on an empty array is `undefined`; the
        -- `sendResult.status` read throws and the catch converts it
        { success := false
          error := some "Unexpected Error: Cannot read properties of undefined (reading \x27status\x27)"
          isTemporary := some true }
      | some sr =>
        if sr.status = some "rejected" || sr.status = some "invalid" then
          { success := false
            error := some ("Message " ++ sr.status.getD "" ++ ": " ++
              jsStrOrD sr.reject_reason "Unknown reason")
            isTemporary := some false
            id := sr._id }
        else
          { success := true, id := sr._id, response := some sr, isTemporary := some false }

/-! ## Webhook verification and event normalization -/

/-- OneSignal raw webhook payload (`event.event` / `event.message`). -/
structure OSWhEventData where
  kind : Option String := none
  external_id : Option String := none
  deriving Repr

structure OSWhMsg where
  id : Option String := none
  deriving Repr

structure OSWhEvent where
  event : Option OSWhEventData := none
  message : Option OSWhMsg := none
  deriving Repr

/-- OneSignal `EVENT_MAP[kind]`, with `UNKNOWN` for misses. -/
def osEventMap (kind : String) : String :=
  if kind = "sent" then "DELIVERED"
  else if kind = "received" then "DELIVERED"
  else if kind = "delivered" then "DELIVERED"
  else if kind = "opened" then "OPENED"
  else if kind = "clicked" then "CLICKED"
  else if kind = "bounced" then "BOUNCED"
  else if kind = "hardbounced" then "BOUNCED"
  else if kind = "failed" then "FAILED"
  else if kind = "errored" then "FAILED"
  else if kind = "spam_report" then "COMPLAINT"
  else if kind = "reported_as_spam" then "COMPLAINT"
  else if kind = "unsubscribed" then "UNSUBSCRIBED"
  else if kind = "supressed" then "BOUNCED"
  else if kind = "suppressed" then "BOUNCED"
  else "UNKNOWN"

/-- The fuzzy substring fallback applied when the map misses. -/
def osFuzzyType (kind : String) : String :=
  if jsIncludes kind "opened" then "OPENED"
  else if jsIncludes kind "clicked" then "CLICKED"
  else if jsIncludes kind "sent" || jsIncludes kind "delivered" || jsIncludes kind "received" then
    "DELIVERED"
  else if jsIncludes kind "unsubscribed" then "UNSUBSCRIBED"
  else if jsIncludes kind "spam" then "COMPLAINT"
  else if jsIncludes kind "boun" then "BOUNCED"
  else if jsIncludes kind "fail" then "FAILED"
  else "UNKNOWN"

/-- The intermediate OneSignal type of a `kind` (map, then fuzzy fallback). -/
def osEventTypeOf (kind : Option String) : String :=
  match kind with
  | none => "UNKNOWN"
  | some k =>
    let t := osEventMap k
    if t = "UNKNOWN" then osFuzzyType k else t

/-- OneSignal `STATUS_MAP`: the canonical status of an intermediate type. -/
def osStatusMap (t : String) : Option String :=
  if t = "DELIVERED" then some "ACCEPTED"
  else if t = "OPENED" then some "OPENED"
  else if t = "CLICKED" then some "CLICKED"
  else if t = "BOUNCED" then some "HARD-REJECT"
  else if t = "FAILED" then some "SOFT-REJECT"
  else if t = "COMPLAINT" then some "COMPLAINED"
  else if t = "UNSUBSCRIBED" then some "HARD-REJECT"
  else none

/-- Whether the OneSignal header authentication fails (a configured
key/value pair and no case-insensitively matching header carrying exactly
the expected value). -/
def osHeaderAuthFails (cfg : OSConfig) (headers : List (String × String)) : Bool :=
  match cfg.webhookHeaderKey, cfg.webhookHeaderValue with
  | some k, some v =>
    k ≠ "" && v ≠ "" &&
      ((headers.find? (fun kv => jsToLower kv.1 = jsToLower k)).map (·.2) ≠ some v)
  | _, _ => false

/-- The OneSignal `webhook`: THROWS (`Except.error`) on an authentication
failure, drops unknown kinds, and otherwise normalizes through the two maps. -/
def oneSignalWebhook (cfg : OSConfig) (event : OSWhEvent)
    (headers : List (String × String)) : Except String (Option WebhookEvent) := do
  if osHeaderAuthFails cfg headers then
    throw "Invalid Webhook Header Value"
  let eventData := event.event.getD {}
  let messageData := event.message.getD {}
  let type_ := osEventTypeOf eventData.kind
  if type_ = "UNKNOWN" then
    return none
  let externalId := jsStrOr eventData.external_id messageData.id
  match osStatusMap type_ with
  | none => return none
  | some status => return some { status := status, messageId := externalId }

/-- Resend webhook payload: either the raw string body or the parsed event
object (`Buffer` bodies behave as the string case). -/
structure ResendEventData where
  email_id : Option String := none
  deriving Repr

structure ResendEvent where
  type : Option String := none
  data : Option ResendEventData := none
  deriving Repr

inductive ResendEventVal where
  | strE (s : String)
  | objE (ev : ResendEvent)
  deriving Repr

/-- `JSON.stringify` image of a parsed Resend event (the object fallback of
the signed-content preparation). -/
def resendEventJson (ev : ResendEvent) : Json :=
  Json.obj (jsonOptField "type" (ev.type.map Json.str) ++
    jsonOptField "data" (ev.data.map (fun d =>
      Json.obj (jsonOptField "email_id" (d.email_id.map Json.str)))))

/-- The payload string signed by svix: the raw string, or the JSON
serialization of an already-parsed object. -/
def resendPayloadString : ResendEventVal → String
  | .strE s => s
  | .objE ev => (resendEventJson ev).render

/-- `event.type` as the switch reads it (a string body has no `type`). -/
def resendEventType : ResendEventVal → Option String
  | .strE _ => none
  | .objE ev => ev.type

def resendEventData : ResendEventVal → Option ResendEventData
  | .strE _ => none
  | .objE ev => ev.data

/-- The Resend event-type switch: informational events (`email.sent`,
`email.delivery_delayed`) and unknown types map to `none`. -/
def resendMapType (t : Option String) : Option String :=
  match t with
  | some "email.delivered" => some "DELIVERED"
  | some "email.bounced" => some "HARD-REJECT"
  | some "email.complained" => some "COMPLAINED"
  | some "email.clicked" => some "CLICKED"
  | some "email.opened" => some "OPENED"
  | _ => none

/-- Key material for the svix signature: base64-decode the secret after
stripping a `whsec_` literal. -/
def resendSecretBytes (secret : String) : List Nat :=
  if jsStartsWith secret "whsec_" then base64Decode (String.mk (secret.data.drop 6))
  else base64Decode secret

/-- Does any space-separated `scheme,value` entry of the signature header
match scheme `v1` and the expected value? -/
def svixSignatureMatches (header expected : String) : Bool :=
  (jsSplit header " ").any (fun sig =>
    match jsSplit sig "," with
    | scheme :: val :: _ => scheme = "v1" && val = expected
    | _ => false)

/-- The svix verification steps of the Resend `webhook`, shared between the
model of `webhook` and the theorems: `none` means a missing-header or stale
timestamp early drop, `some ok` reports whether the signature matched. -/
def resendVerify (secret : String) (event : ResendEventVal)
    (headers : List (String × String)) (now : Int) : Option Bool :=
  let svixId := jsGetKey headers "svix-id"
  let svixTimestamp := jsGetKey headers "svix-timestamp"
  let svixSignature := jsGetKey headers "svix-signature"
  match svixId, svixTimestamp, svixSignature with
  | some i, some ts, some sg =>
    if i = "" || ts = "" || sg = "" then none
    else
      -- `Math.abs(now - timestamp) > 300`: a non-numeric timestamp gives
      -- `NaN > 300 = false` and passes
      let stale :=
        match jsParseInt ts with
        | some t => decide (300 < (now - t).natAbs)
        | none => false
      if stale then none
      else
        let signedContent := i ++ "." ++ ts ++ "." ++ resendPayloadString event
        let signature := hmacSha256Base64 (resendSecretBytes secret) signedContent
        some (svixSignatureMatches sg signature)
  | _, _, _ => none

/-- The Resend `webhook`: verification failures drop the event (`none`);
after verification the switch maps the type and the `data.email_id` read may
throw on a malformed event. -/
def resendWebhook (cfg : ResendConfig) (event : ResendEventVal)
    (headers : List (String × String)) (now : Int) :
    Except String (Option WebhookEvent) := do
  let verified : Option Unit ←
    match cfg.webhookSigningSecret with
    | some secret =>
      if secret = "" then pure (some ())
      else
        match resendVerify secret event headers now with
        | none => pure none
        | some true => pure (some ())
        | some false => pure none
    | none => pure (some ())
  match verified with
  | none => return none
  | some () =>
    match resendMapType (resendEventType event) with
    | none => return none
    | some status =>
      match resendEventData event with
      | none => throw "Cannot read properties of undefined (reading \x27email_id\x27)"
      | some d => return some { status := status, messageId := d.email_id }

/-- One entry of the parsed `mandrill_events` array. -/
structure MandrillMsgRef where
  _id : Option String := none
  deriving Repr, DecidableEq

structure MandrillEvent where
  event : Option String := none
  msg : Option MandrillMsgRef := none
  ts : Option Int := none
  deriving Repr, DecidableEq

/-- The Mandrill `statusMap` (falsy entries — explicit `null`s and misses —
are modelled as `none`). -/
def mandrillStatusMap (t : Option String) : Option String :=
  match t with
  | some "hard_bounce" => some "HARD-REJECT"
  | some "soft_bounce" => some "SOFT-REJECT"
  | some "delivered" => some "DELIVERED"
  | some "open" => some "OPENED"
  | some "click" => some "CLICKED"
  | some "spam" => some "COMPLAINED"
  | some "reject" => some "HARD-REJECT"
  | _ => none

/-- `_processWebhookEvents`: map each event, skip falsy statuses, and return
`null` for an empty result list. -/
def mandrillProcessWebhookEvents (events : List MandrillEvent) : Option (List WebhookEvent) :=
  let results := events.filterMap (fun webhookEvent =>
    let msg := webhookEvent.msg.getD {}
    match mandrillStatusMap webhookEvent.event with
    | none => none
    | some status =>
      some { status := status
             messageId := msg._id
             timestamp := webhookEvent.ts
             event := webhookEvent.event })
  if results.length > 0 then some results else none

/-- `_verifyWebhookSignature`: compare the `x-mandrill-signature` header with
the base64 HMAC-SHA1 of the configured URL followed by every body field key
and value in ascending key order. -/
def mandrillVerifyWebhookSignature (webhookKey webhookUrl : String)
    (body : List (String × String)) (headers : List (String × String)) : Bool :=
  match jsStrOr (jsGetKey headers "x-mandrill-signature")
      (jsGetKey headers "X-Mandrill-Signature") with
  | none => false
  | some signature =>
    let sortedKeys := (body.map (·.1)).mergeSort (· ≤ ·)
    let signedData := webhookUrl ++
      String.join (sortedKeys.map (fun k => k ++ (jsGetKey body k).getD ""))
    let expectedSignature := hmacSha1Base64 webhookKey signedData
    signature = expectedSignature

/-- The Mandrill `webhook` over a form-encoded body (an association list of
string fields).  `JSON.parse` of the `mandrill_events` string is abstracted
as the `parse` argument (`none` models a parse error, caught and turned into
`null`); the already-an-array branch of `_parseMandrillEvents` cannot arise
from a form body. -/
def mandrillWebhook (cfg : MandrillConfig) (body : List (String × String))
    (headers : List (String × String)) (parse : String → Option (List MandrillEvent)) :
    Option (List WebhookEvent) :=
  match jsGetKey body "mandrill_events" with
  | none => none
  | some raw =>
    if raw = "" then none
    else
      let verifyOk :=
        match cfg.webhookKey, cfg.webhookUrl with
        | some k, some u =>
          if k ≠ "" && u ≠ "" then mandrillVerifyWebhookSignature k u body headers
          else true
        | _, _ => true
      if !verifyOk then none
      else
        match parse raw with
        | none => none
        | some events =>
          if events.length = 0 then none
          else mandrillProcessWebhookEvents events

/-! ## The client SDK request engine (src/unnamed/part_004, `ThorMailClient`) -/

/-- The retry policy, with the constructor defaults. -/
structure RetryConfig where
  maxRetries : Nat := 3
  baseDelay : ℚ := 1000
  maxDelay : ℚ := 30000
  retryOn : List Int := [429, 500, 502, 503, 504]
  retryOnTimeout : Bool := true
  retryOnNetwork : Bool := true
  deriving Repr

/-- The exponential-plus-jitter branch of `_calculateBackoff`: `rand` is the
`Math.random()` draw in `[0,1)`, the jitter is `±25%`, and the result is
clamped into `[0, maxDelay]`. -/
def calculateBackoffJitter (cfg : RetryConfig) (attempt : Nat) (rand : ℚ) : ℚ :=
  let exponentialDelay := cfg.baseDelay * 2 ^ attempt
  let jitter := exponentialDelay * (1 / 4) * (rand * 2 - 1)
  let delay := exponentialDelay + jitter
  min (max delay 0) cfg.maxDelay

/-- `_calculateBackoff(attempt, serverRetryAfter)`: a truthy positive server
hint short-circuits to `min(hint*1000, maxDelay)` with no jitter. -/
def calculateBackoff (cfg : RetryConfig) (attempt : Nat) (serverRetryAfter : Option ℚ)
    (rand : ℚ) : ℚ :=
  match serverRetryAfter with
  | some n =>
    if n ≠ 0 ∧ 0 < n then min (n * 1000) cfg.maxDelay
    else calculateBackoffJitter cfg attempt rand
  | none => calculateBackoffJitter cfg attempt rand

/-- The `ThorMailError` fields the engine reads. -/
structure TMError where
  message : String
  statusCode : Int
  code : Option String := none
  retryAfter : Option Int := none
  deriving Repr, DecidableEq

/-- `_shouldRetry(error, attempt)`. -/
def shouldRetry (cfg : RetryConfig) (e : TMError) (attempt : Nat) : Bool :=
  if cfg.maxRetries ≤ attempt then false
  else if e.code = some "TIMEOUT" && cfg.retryOnTimeout then true
  else if e.code = some "NETWORK_ERROR" && cfg.retryOnNetwork then true
  else cfg.retryOn.contains e.statusCode

/-- The parsed JSON body of a response, as far as `_request` reads it. -/
structure ClientBody where
  error : Option String := none
  code : Option String := none
  retryAfter : Option Int := none
  deriving Repr, DecidableEq

/-- What one attempt's `fetch` produces: a response, an abort (timeout), a
network-level `TypeError`, or some other exception from the attempt body. -/
inductive AttemptOutcome where
  | resp (status : Int) (body : ClientBody) (retryAfterHeader : Option String)
  | abortTimeout
  | netFail
  | thrown (msg : Option String)
  deriving Repr

/-- The attempt loop of `_request`, with the per-attempt outcomes as an
oracle indexed by the attempt counter.  `fuel` is `maxRetries + 1 - attempt`,
so `fuel = 0` is the exit of the `for` loop (the exhaustion epilogue that
annotates the last error with the retry count).  The computed backoff delays
only suspend the loop and are not modelled. -/
def clientRequestLoop (cfg : RetryConfig) (timeout : Int) (outcomes : Nat → AttemptOutcome) :
    Nat → Nat → Option TMError → Except TMError ClientBody
  | _, 0, lastError =>
    match lastError with
    | some e =>
      .error { e with message := e.message ++ " (after " ++ toString cfg.maxRetries ++ " retries)" }
    | none =>
      .error { message := "Request failed after " ++ toString cfg.maxRetries ++ " retries"
               statusCode := 0
               code := some "MAX_RETRIES_EXCEEDED" }
  | attempt, fuel + 1, _lastError =>
    match outcomes attempt with
    | .resp status body retryAfterHeader =>
      if jsRespOk status then .ok body
      else
        let retryAfterSeconds : Option Int :=
          match retryAfterHeader with
          | some s => if s = "" then none else jsParseInt s
          | none => none
        let error : TMError :=
          { message := jsStrOrD body.error ("Request failed with status " ++ toString status)
            statusCode := status
            code := jsStrOr body.code none
            retryAfter := jsIntOr retryAfterSeconds (jsIntOr body.retryAfter none) }
        if shouldRetry cfg error attempt then
          clientRequestLoop cfg timeout outcomes (attempt + 1) fuel (some error)
        else .error error
    | .abortTimeout =>
      let timeoutError : TMError :=
        { message := "Request timeout after " ++ toString timeout ++ "ms"
          statusCode := 0
          code := some "TIMEOUT" }
      if shouldRetry cfg timeoutError attempt then
        clientRequestLoop cfg timeout outcomes (attempt + 1) fuel (some timeoutError)
      else .error timeoutError
    | .netFail =>
      let networkError : TMError :=
        { message := "Network error: Unable to connect to ThorMail API"
          statusCode := 0
          code := some "NETWORK_ERROR" }
      if shouldRetry cfg networkError attempt then
        clientRequestLoop cfg timeout outcomes (attempt + 1) fuel (some networkError)
      else .error networkError
    | .thrown msg =>
      .error { message := jsStrOrD msg "An unexpected error occurred"
               statusCode := 0
               code := some "UNKNOWN_ERROR" }

/-- `_request(endpoint, body)`: run the attempt loop from attempt 0. -/
def clientRequest (cfg : RetryConfig) (timeout : Int) (outcomes : Nat → AttemptOutcome) :
    Except TMError ClientBody :=
  clientRequestLoop cfg timeout outcomes 0 (cfg.maxRetries + 1) none

/-! ## The client SDK `sendBatch` local validation -/

/-- A dynamically-typed JS value, as far as `sendBatch` inspects its payload. -/
inductive JsVal where
  | vNull
  | vBool (b : Bool)
  | vNum (n : Int)
  | vStr (s : String)
  | vArr (l : List JsVal)
  | vObj (fields : List (String × JsVal))
  deriving Repr

/-- JS truthiness of a value. -/
def JsVal.truthy : JsVal → Bool
  | .vNull => false
  | .vBool b => b
  | .vNum n => n ≠ 0
  | .vStr s => s ≠ ""
  | .vArr _ => true
  | .vObj _ => true

/-- Whether `typeof v === 'object'` (true for `null` and arrays too). -/
def JsVal.typeofObject : JsVal → Bool
  | .vNull => true
  | .vArr _ => true
  | .vObj _ => true
  | _ => false

/-- Property access (`undefined` off non-objects and missing keys). -/
def JsVal.get (v : JsVal) (k : String) : Option JsVal :=
  match v with
  | .vObj fields => (fields.find? (fun kv => kv.1 = k)).map (·.2)
  | _ => none

/-- Whether one recipient entry has a truthy string `to` that is non-blank
after trimming. -/
def recipientToOk (r : JsVal) : Bool :=
  match r.get "to" with
  | some (.vStr s) => s ≠ "" && jsTrim s ≠ ""
  | _ => false

/-- The per-recipient loop of `sendBatch`, throwing at the first invalid
entry. -/
def sendBatchCheckRecipients : List JsVal → Nat → Option TMError
  | [], _ => none
  | r :: rest, i =>
    if !r.truthy || !r.typeofObject then
      some { message := "Invalid recipient at index " ++ toString i
             statusCode := 400
             code := some "VALIDATION_ERROR" }
    else if !recipientToOk r then
      some { message := "Missing or invalid \"to\" field at index " ++ toString i
             statusCode := 400
             code := some "VALIDATION_ERROR" }
    else sendBatchCheckRecipients rest (i + 1)

/-- `sendBatch(payload)`: all local validation, then the forwarding of the
unchanged payload to `/v1/send-batch` (the `.ok` value). -/
def sendBatch (payload : JsVal) : Except TMError (String × JsVal) :=
  if !payload.truthy || !payload.typeofObject then
    .error { message := "Payload must be an object"
             statusCode := 400
             code := some "VALIDATION_ERROR" }
  else
    match payload.get "emails" with
    | some (.vArr emails) =>
      if emails.length = 0 then
        .error { message := "The \"emails\" array cannot be empty"
                 statusCode := 400
                 code := some "VALIDATION_ERROR" }
      else if emails.length > 500 then
        .error { message := "Batch size " ++ toString emails.length ++ " exceeds maximum of 500"
                 statusCode := 400
                 code := some "BATCH_SIZE_EXCEEDED" }
      else
        match sendBatchCheckRecipients emails 0 with
        | some e => .error e
        | none => .ok ("/v1/send-batch", payload)
    | _ =>
      .error { message := "Missing or invalid \"emails\" array"
               statusCode := 400
               code := some "VALIDATION_ERROR" }

/-! # Theorems -/

/-- C4: for every attempt count and every jitter outcome the computed backoff
delay lies in `[0, maxDelay]`; a positive server retry hint of `n` seconds
gives exactly `min(n*1000, maxDelay)` with no jitter; otherwise the delay is
`baseDelay * 2^attempt` with `±25%` uniform jitter, clamped to
`[0, maxDelay]`. -/
theorem claim_C4_backoff_bounds (cfg : RetryConfig) (attempt : Nat) (sra : Option ℚ)
    (rand : ℚ) (hmax : 0 ≤ cfg.maxDelay) :
    (0 ≤ calculateBackoff cfg attempt sra rand ∧
      calculateBackoff cfg attempt sra rand ≤ cfg.maxDelay) ∧
    (∀ n, sra = some n → 0 < n →
      calculateBackoff cfg attempt sra rand = min (n * 1000) cfg.maxDelay) ∧
    (sra = none →
      calculateBackoff cfg attempt sra rand =
        min (max (cfg.baseDelay * 2 ^ attempt +
          cfg.baseDelay * 2 ^ attempt * (1 / 4) * (rand * 2 - 1)) 0) cfg.maxDelay) := by
  have hjit : 0 ≤ calculateBackoffJitter cfg attempt rand ∧
      calculateBackoffJitter cfg attempt rand ≤ cfg.maxDelay := by
    constructor
    · exact le_min (le_max_right _ 0) hmax
    · exact min_le_right _ _
  refine ⟨?_, ?_, ?_⟩
  · cases sra with
    | none => exact hjit
    | some n =>
      by_cases hn : n ≠ 0 ∧ 0 < n
      · simp only [calculateBackoff, if_pos hn]
        have h0 : (0 : ℚ) ≤ n * 1000 := by nlinarith [hn.2]
        exact ⟨le_min h0 hmax, min_le_right _ _⟩
      · simpa only [calculateBackoff, if_neg hn] using hjit
  · rintro n rfl hn
    simp only [calculateBackoff]
    rw [if_pos (show n ≠ 0 ∧ 0 < n from ⟨ne_of_gt hn, hn⟩)]
  · rintro rfl
    rfl

/-- C4 witness: a 2-second server hint at attempt 2 under the default policy
gives exactly 2000 ms. -/
theorem claim_C4_backoff_bounds_witness :
    calculateBackoff { maxRetries := 3 } 2 (some 2) (1 / 2) = 2000 := by
  have h := (claim_C4_backoff_bounds { maxRetries := 3 } 2 (some 2) (1 / 2)
    (by norm_num)).2.1 2 rfl (by norm_num)
  rw [h]
  norm_num [RetryConfig.maxDelay]

/-- C9: the failing input — both attempts of a `maxRetries = 1` run fail
with a retryable HTTP 500, yet the error finally raised is the bare
classified error of the last attempt: its message carries neither the
`(after N retries)` annotation nor any mention of the attempt count, because
`_shouldRetry` already refuses at `attempt >= maxRetries`, making the
post-loop annotation epilogue unreachable. -/
theorem claim_C9_exhaustion_unannotated :
    clientRequest { maxRetries := 1 } 30000 (fun _ => .resp 500 {} none) =
      .error { message := "Request failed with status 500", statusCode := 500 } ∧
    jsIncludes "Request failed with status 500" "after" = false ∧
    jsIncludes "Request failed with status 500" "retries" = false := by
  refine ⟨by rfl, by decide, by decide⟩

/-- C8 counterexample: Mandrill maps the `unsub` event type to `null`
(dropped), not to a `HARD-REJECT` event as the claim states for every
adapter. -/
theorem claim_C8_counterexample_mandrill_unsub :
    mandrillStatusMap (some "unsub") = none ∧
    mandrillProcessWebhookEvents
      [{ event := some "unsub", msg := some { _id := some "m1" }, ts := some 1 }] = none := by
  constructor
  · rfl
  · rfl

/-- C8 amended: non-terminal events (`send`, `deferral`, `email.sent`,
`email.delivery_delayed`) are dropped, bounces/rejects map to HARD-REJECT,
soft bounces to SOFT-REJECT, deliveries to DELIVERED (ACCEPTED for
OneSignal), opens/clicks/abuse to OPENED/CLICKED/COMPLAINED, and an
unsubscribe maps to HARD-REJECT in the OneSignal adapter — but Mandrill
drops its `unsub` events instead of surfacing them. -/
theorem claim_C8_amended_normalization_tables :
    mandrillStatusMap (some "send") = none ∧
    mandrillStatusMap (some "deferral") = none ∧
    mandrillStatusMap (some "unsub") = none ∧
    mandrillStatusMap (some "hard_bounce") = some "HARD-REJECT" ∧
    mandrillStatusMap (some "reject") = some "HARD-REJECT" ∧
    mandrillStatusMap (some "soft_bounce") = some "SOFT-REJECT" ∧
    mandrillStatusMap (some "delivered") = some "DELIVERED" ∧
    mandrillStatusMap (some "open") = some "OPENED" ∧
    mandrillStatusMap (some "click") = some "CLICKED" ∧
    mandrillStatusMap (some "spam") = some "COMPLAINED" ∧
    resendMapType (some "email.sent") = none ∧
    resendMapType (some "email.delivery_delayed") = none ∧
    resendMapType (some "email.bounced") = some "HARD-REJECT" ∧
    resendMapType (some "email.delivered") = some "DELIVERED" ∧
    resendMapType (some "email.opened") = some "OPENED" ∧
    resendMapType (some "email.clicked") = some "CLICKED" ∧
    resendMapType (some "email.complained") = some "COMPLAINED" ∧
    osStatusMap (osEventTypeOf (some "unsubscribed")) = some "HARD-REJECT" ∧
    osStatusMap (osEventTypeOf (some "bounced")) = some "HARD-REJECT" ∧
    osStatusMap (osEventTypeOf (some "hardbounced")) = some "HARD-REJECT" ∧
    osStatusMap (osEventTypeOf (some "failed")) = some "SOFT-REJECT" ∧
    osStatusMap (osEventTypeOf (some "delivered")) = some "ACCEPTED" ∧
    osStatusMap (osEventTypeOf (some "sent")) = some "ACCEPTED" ∧
    osStatusMap (osEventTypeOf (some "opened")) = some "OPENED" ∧
    osStatusMap (osEventTypeOf (some "clicked")) = some "CLICKED" ∧
    osStatusMap (osEventTypeOf (some "spam_report")) = some "COMPLAINED" := by
  decide

/-! ## C10 helper lemmas -/

theorem JsVal.get_eq_some_obj {p : JsVal} {k : String} {v : JsVal} (h : p.get k = some v) :
    p.truthy = true ∧ p.typeofObject = true := by
  cases p <;> simp [JsVal.get, JsVal.truthy, JsVal.typeofObject] at h ⊢

theorem recipientToOk_spec (r : JsVal) (h : recipientToOk r = true) :
    ∃ s, r.get "to" = some (.vStr s) ∧ s ≠ "" := by
  unfold recipientToOk at h
  split at h
  next s heq =>
    rw [Bool.and_eq_true] at h
    exact ⟨s, heq, by simpa using h.1⟩
  next => cases h

theorem sendBatchCheckRecipients_code (l : List JsVal) (i : Nat) (e : TMError)
    (h : sendBatchCheckRecipients l i = some e) :
    e.statusCode = 400 ∧ e.code = some "VALIDATION_ERROR" := by
  induction l generalizing i with
  | nil => simp [sendBatchCheckRecipients] at h
  | cons r rest ih =>
    simp only [sendBatchCheckRecipients] at h
    split at h
    · cases h
      exact ⟨rfl, rfl⟩
    · split at h
      · cases h
        exact ⟨rfl, rfl⟩
      · exact ih _ h

theorem sendBatchCheckRecipients_some_of_bad (l : List JsVal) (i : Nat)
    (h : ∃ r ∈ l, (r.truthy && r.typeofObject && recipientToOk r) = false) :
    ∃ e, sendBatchCheckRecipients l i = some e := by
  induction l generalizing i with
  | nil =>
    rcases h with ⟨r, hr, _⟩
    cases hr
  | cons a rest ih =>
    simp only [sendBatchCheckRecipients]
    by_cases h1 : (!a.truthy || !a.typeofObject) = true
    · rw [if_pos h1]
      exact ⟨_, rfl⟩
    · rw [if_neg h1]
      by_cases h2 : (!recipientToOk a) = true
      · rw [if_pos h2]
        exact ⟨_, rfl⟩
      · rw [if_neg h2]
        apply ih
        rcases h with ⟨r, hr, hbad⟩
        rcases List.mem_cons.mp hr with rfl | hr2
        · exfalso
          cases ht : r.truthy <;> cases ho : r.typeofObject <;> cases hk : recipientToOk r <;>
            simp [ht, ho, hk] at h1 h2 hbad
        · exact ⟨r, hr2, hbad⟩

theorem sendBatchCheckRecipients_none (l : List JsVal) (i : Nat)
    (h : sendBatchCheckRecipients l i = none) :
    ∀ r ∈ l, r.truthy = true ∧ r.typeofObject = true ∧
      ∃ s, r.get "to" = some (.vStr s) ∧ s ≠ "" := by
  induction l generalizing i with
  | nil => intro r hr; cases hr
  | cons a rest ih =>
    intro r hr
    simp only [sendBatchCheckRecipients] at h
    by_cases h1 : (!a.truthy || !a.typeofObject) = true
    · rw [if_pos h1] at h
      cases h
    · rw [if_neg h1] at h
      by_cases h2 : (!recipientToOk a) = true
      · rw [if_pos h2] at h
        cases h
      · rw [if_neg h2] at h
        rcases List.mem_cons.mp hr with rfl | hr2
        · have ht : r.truthy = true := by
            cases hx : r.truthy
            · simp [hx] at h1
            · rfl
          have ho : r.typeofObject = true := by
            cases hx : r.typeofObject
            · simp [hx] at h1
            · rfl
          have hk : recipientToOk r = true := by
            cases hx : recipientToOk r
            · simp [hx] at h2
            · rfl
          exact ⟨ht, ho, recipientToOk_spec r hk⟩
        · exact ih _ h r hr2

/-- C10: `sendBatch` validates its payload locally and throws a
`ThorMailError` with status 400 whenever `emails` is missing or not an
array, the array is empty, the array exceeds 500 entries (code
`BATCH_SIZE_EXCEEDED`), or an entry lacks a non-empty string `to`; only a
payload passing every check is forwarded to `/v1/send-batch`. -/
theorem claim_C10_sendBatch_validation (p : JsVal) :
    ((∀ l, p.get "emails" ≠ some (.vArr l)) →
      ∃ e, sendBatch p = .error e ∧ e.statusCode = 400 ∧ e.code = some "VALIDATION_ERROR") ∧
    (p.get "emails" = some (.vArr []) →
      ∃ e, sendBatch p = .error e ∧ e.statusCode = 400 ∧ e.code = some "VALIDATION_ERROR") ∧
    (∀ l, p.get "emails" = some (.vArr l) → l.length > 500 →
      sendBatch p = .error
        { message := "Batch size " ++ toString l.length ++ " exceeds maximum of 500"
          statusCode := 400
          code := some "BATCH_SIZE_EXCEEDED" }) ∧
    (∀ l r, p.get "emails" = some (.vArr l) → r ∈ l →
      (r.truthy && r.typeofObject && recipientToOk r) = false →
      ∃ e, sendBatch p = .error e ∧ e.statusCode = 400) ∧
    (∀ q, sendBatch p = .ok q →
      q.1 = "/v1/send-batch" ∧ q.2 = p ∧ p.truthy = true ∧ p.typeofObject = true ∧
      ∃ l, p.get "emails" = some (.vArr l) ∧ 0 < l.length ∧ l.length ≤ 500 ∧
        ∀ r ∈ l, r.truthy = true ∧ r.typeofObject = true ∧
          ∃ s, r.get "to" = some (.vStr s) ∧ s ≠ "") := by
  refine ⟨?_, ?_, ?_, ?_, ?_⟩
  · intro hne
    unfold sendBatch
    split
    · exact ⟨_, rfl, rfl, rfl⟩
    · split
      next l heq => exact absurd heq (hne l)
      next => exact ⟨_, rfl, rfl, rfl⟩
  · intro heq
    obtain ⟨ht, hob⟩ := JsVal.get_eq_some_obj heq
    unfold sendBatch
    rw [if_neg (by simp [ht, hob])]
    split
    next l heq2 =>
      rw [heq] at heq2
      cases heq2
      exact ⟨_, rfl, rfl, rfl⟩
    next hcon => exact (hcon _ heq).elim
  · intro l heq hlen
    obtain ⟨ht, hob⟩ := JsVal.get_eq_some_obj heq
    unfold sendBatch
    rw [if_neg (by simp [ht, hob])]
    split
    next l2 heq2 =>
      rw [heq] at heq2
      cases heq2
      rw [if_neg (by omega), if_pos hlen]
    next hcon => exact (hcon _ heq).elim
  · intro l r heq hr hbad
    obtain ⟨ht, hob⟩ := JsVal.get_eq_some_obj heq
    unfold sendBatch
    rw [if_neg (by simp [ht, hob])]
    split
    next l2 heq2 =>
      rw [heq] at heq2
      cases heq2
      by_cases h0 : l.length = 0
      · rw [if_pos h0]
        exact ⟨_, rfl, rfl⟩
      · rw [if_neg h0]
        by_cases h5 : l.length > 500
        · rw [if_pos h5]
          exact ⟨_, rfl, rfl⟩
        · rw [if_neg h5]
          obtain ⟨e, he⟩ := sendBatchCheckRecipients_some_of_bad l 0 ⟨r, hr, hbad⟩
          rw [he]
          exact ⟨e, rfl, (sendBatchCheckRecipients_code l 0 e he).1⟩
    next hcon => exact (hcon _ heq).elim
  · intro q hq
    unfold sendBatch at hq
    split at hq
    · cases hq
    next hto =>
      split at hq
      next l heq =>
        split at hq
        · cases hq
        next h0 =>
          split at hq
          · cases hq
          next h5 =>
            split at hq
            · cases hq
            next hnone =>
              cases hq
              have ht : p.truthy = true := by
                cases hx : p.truthy
                · simp [hx] at hto
                · rfl
              have hob : p.typeofObject = true := by
                cases hx : p.typeofObject
                · simp [hx] at hto
                · rfl
              exact ⟨rfl, rfl, ht, hob, l, heq, by omega, by omega,
                sendBatchCheckRecipients_none l 0 hnone⟩
      next => cases hq

/-- C10 witness: a numeric payload is rejected with a 400 validation error,
and a 501-recipient batch is rejected with `BATCH_SIZE_EXCEEDED`. -/
theorem claim_C10_sendBatch_validation_witness :
    (∃ e, sendBatch (.vNum 7) = .error e ∧ e.statusCode = 400 ∧
      e.code = some "VALIDATION_ERROR") ∧
    sendBatch (.vObj [("emails", .vArr (List.replicate 501 (.vObj [("to", .vStr "x")])))]) =
      .error { message := "Batch size 501 exceeds maximum of 500"
               statusCode := 400
               code := some "BATCH_SIZE_EXCEEDED" } := by
  constructor
  · exact (claim_C10_sendBatch_validation (.vNum 7)).1 (by intro l; simp [JsVal.get])
  · have h := (claim_C10_sendBatch_validation
        (.vObj [("emails", .vArr (List.replicate 501 (.vObj [("to", .vStr "x")])))])).2.2.1
      (List.replicate 501 (.vObj [("to", .vStr "x")])) rfl
      (by rw [List.length_replicate]; omega)
    rw [h, List.length_replicate]
    rfl

/-! ## C7: idempotency-key derivation -/

set_option maxRecDepth 8000

/-- C7 counterexample: the OneSignal derivation for the key `"1"` formats
the raw SHA-1 digest as 8-4-4-4-12, producing a token whose version
position holds `b` and whose variant position holds `5`; it therefore fails
the very UUID regex the adapter uses for its pass-through test, contrary to
the claim that the derived token always matches that pattern. -/
theorem claim_C7_counterexample_onesignal_uuid :
    oneSignalIdempotencyKey "1" = "356a192b-7913-b04c-5457-4d18c28d46e6" ∧
    uuidRegexTest (oneSignalIdempotencyKey "1") = false := by
  constructor
  · rfl
  · rfl

theorem hexDigit_hexI (n : Nat) : hexCharI (hexDigit n) = true := by
  unfold hexDigit
  rcases Nat.lt_or_ge n 16 with h | h
  · interval_cases n <;> decide
  · rw [List.getD_eq_default _ _ (le_trans (by decide) h)]
    decide

theorem sha1HexChars_hex (s : String) : ∀ c ∈ sha1HexChars s, hexCharI c = true := by
  intro c hc
  simp only [sha1HexChars, bytesToHexChars, List.mem_flatMap] at hc
  rcases hc with ⟨b, hb, hcb⟩
  simp only [byteToHex, List.mem_cons, List.not_mem_nil, or_false] at hcb
  rcases hcb with rfl | rfl
  · exact hexDigit_hexI _
  · exact hexDigit_hexI _

theorem sha1Bytes_length (m : List Nat) : (sha1Bytes m).length = 20 := by
  rfl

theorem bytesToHexChars_length (bs : List Nat) : (bytesToHexChars bs).length = 2 * bs.length := by
  induction bs with
  | nil => rfl
  | cons b rest ih =>
    simp only [bytesToHexChars, List.flatMap_cons, byteToHex, List.length_append,
      List.length_cons, List.length_nil, List.length_flatMap] at ih ⊢
    omega

theorem sha1HexChars_length (s : String) : (sha1HexChars s).length = 40 := by
  simp [sha1HexChars, bytesToHexChars_length, sha1Bytes_length]

theorem matchSeg_append (p : Char → Bool) (l rest : List Char)
    (hl : ∀ c ∈ l, p c = true) :
    matchSeg p l.length (l ++ rest) = some rest := by
  induction l with
  | nil => rfl
  | cons c cs ih =>
    simp only [List.length_cons, List.cons_append, matchSeg]
    rw [if_pos (hl c (List.mem_cons_self c cs))]
    exact ih (fun x hx => hl x (List.mem_cons_of_mem c hx))

theorem matchSeg_mono {p q : Char → Bool} (hpq : ∀ c, p c = true → q c = true) :
    ∀ n cs r, matchSeg p n cs = some r → matchSeg q n cs = some r := by
  intro n
  induction n with
  | zero => intro cs r h; exact h
  | succ m ih =>
    intro cs r h
    cases cs with
    | nil => simp [matchSeg] at h
    | cons c rest =>
      simp only [matchSeg] at h ⊢
      by_cases hc : p c = true
      · rw [if_pos hc] at h
        rw [if_pos (hpq c hc)]
        exact ih rest r h
      · rw [if_neg hc] at h
        cases h

theorem uuidVersionChar_hex (c : Char) (h : uuidVersionChar c = true) : hexCharI c = true := by
  have h2 : c ∈ ['1', '2', '3', '4', '5'] := by
    simpa [uuidVersionChar] using h
  fin_cases h2 <;> decide

theorem uuidVariantChar_hex (c : Char) (h : uuidVariantChar c = true) : hexCharI c = true := by
  have h2 : c ∈ ['8', '9', 'a', 'b', 'A', 'B'] := by
    simpa [uuidVariantChar] using h
  fin_cases h2 <;> decide

theorem uuidShape_concat (s1 s2 s3 s4 s5 : List Char)
    (l1 : s1.length = 8) (l2 : s2.length = 4) (l3 : s3.length = 4)
    (l4 : s4.length = 4) (l5 : s5.length = 12)
    (hx : ∀ c, (c ∈ s1 ∨ c ∈ s2 ∨ c ∈ s3 ∨ c ∈ s4 ∨ c ∈ s5) → hexCharI c = true) :
    uuidPattern hexCharI hexCharI
      (s1 ++ ('-' :: (s2 ++ ('-' :: (s3 ++ ('-' :: (s4 ++ ('-' :: s5)))))))) = true := by
  cases s3 with
  | nil => cases l3
  | cons c3 t3 =>
  cases s4 with
  | nil => cases l4
  | cons c4 t4 =>
  have ht3 : t3.length = 3 := by simpa using l3
  have ht4 : t4.length = 3 := by simpa using l4
  unfold uuidPattern
  have m1 := matchSeg_append hexCharI s1
    ('-' :: (s2 ++ ('-' :: ((c3 :: t3) ++ ('-' :: ((c4 :: t4) ++ ('-' :: s5)))))))
    (fun c hc => hx c (Or.inl hc))
  rw [l1] at m1
  have m2 := matchSeg_append hexCharI s2
    ('-' :: ((c3 :: t3) ++ ('-' :: ((c4 :: t4) ++ ('-' :: s5)))))
    (fun c hc => hx c (Or.inr (Or.inl hc)))
  rw [l2] at m2
  have m3 := matchSeg_append hexCharI t3 ('-' :: c4 :: (t4 ++ ('-' :: s5)))
    (fun c hc => hx c (Or.inr (Or.inr (Or.inl (List.mem_cons_of_mem c3 hc)))))
  rw [ht3] at m3
  have m4 := matchSeg_append hexCharI t4 ('-' :: s5)
    (fun c hc => hx c (Or.inr (Or.inr (Or.inr (Or.inl (List.mem_cons_of_mem c4 hc))))))
  rw [ht4] at m4
  have m5 : matchSeg hexCharI 12 s5 = some [] := by
    have h5 := matchSeg_append hexCharI s5 []
      (fun c hc => hx c (Or.inr (Or.inr (Or.inr (Or.inr hc)))))
    rw [l5, List.append_nil] at h5
    exact h5
  have hc3 : hexCharI c3 = true :=
    hx c3 (Or.inr (Or.inr (Or.inl (List.mem_cons_self c3 t3))))
  have hc4 : hexCharI c4 = true :=
    hx c4 (Or.inr (Or.inr (Or.inr (Or.inl (List.mem_cons_self c4 t4)))))
  rw [m1]
  simp only [Option.some_bind, matchDash]
  rw [m2]
  simp only [Option.some_bind, matchDash, List.cons_append, matchSeg]
  rw [if_pos hc3]
  simp only [Option.some_bind]
  rw [m3]
  simp only [Option.some_bind, matchDash, List.cons_append, matchSeg]
  rw [if_pos hc4]
  simp only [Option.some_bind]
  rw [m4]
  simp only [Option.some_bind, matchDash]
  rw [m5]

theorem uuidRegexTest_shape (s : String) (h : uuidRegexTest s = true) :
    uuidShapeTest s = true := by
  unfold uuidRegexTest at h
  unfold uuidShapeTest
  unfold uuidPattern at h ⊢
  cases e1 : matchSeg hexCharI 8 s.data with
  | none => rw [e1] at h; simp at h
  | some r1 =>
  rw [e1] at h
  simp only [Option.some_bind] at h ⊢
  cases e2 : matchDash r1 with
  | none => rw [e2] at h; simp at h
  | some r2 =>
  rw [e2] at h
  simp only [Option.some_bind] at h ⊢
  cases e3 : matchSeg hexCharI 4 r2 with
  | none => rw [e3] at h; simp at h
  | some r3 =>
  rw [e3] at h
  simp only [Option.some_bind] at h ⊢
  cases e4 : matchDash r3 with
  | none => rw [e4] at h; simp at h
  | some r4 =>
  rw [e4] at h
  simp only [Option.some_bind] at h ⊢
  cases e5 : matchSeg uuidVersionChar 1 r4 with
  | none => rw [e5] at h; simp at h
  | some r5 =>
  rw [e5] at h
  rw [matchSeg_mono (fun c hc => uuidVersionChar_hex c hc) 1 r4 r5 e5]
  simp only [Option.some_bind] at h ⊢
  cases e6 : matchSeg hexCharI 3 r5 with
  | none => rw [e6] at h; simp at h
  | some r6 =>
  rw [e6] at h
  simp only [Option.some_bind] at h ⊢
  cases e7 : matchDash r6 with
  | none => rw [e7] at h; simp at h
  | some r7 =>
  rw [e7] at h
  simp only [Option.some_bind] at h ⊢
  cases e8 : matchSeg uuidVariantChar 1 r7 with
  | none => rw [e8] at h; simp at h
  | some r8 =>
  rw [e8] at h
  rw [matchSeg_mono (fun c hc => uuidVariantChar_hex c hc) 1 r7 r8 e8]
  simp only [Option.some_bind] at h ⊢
  cases e9 : matchSeg hexCharI 3 r8 with
  | none => rw [e9] at h; simp at h
  | some r9 =>
  rw [e9] at h
  simp only [Option.some_bind] at h ⊢
  cases e10 : matchDash r9 with
  | none => rw [e10] at h; simp at h
  | some r10 =>
  rw [e10] at h
  simp only [Option.some_bind] at h ⊢
  exact h

theorem claim_C7_amended_key_derivation (k k2 : String) :
    (k = k2 →
      oneSignalIdempotencyKey k = oneSignalIdempotencyKey k2 ∧
      resendIdempotencyKey k = resendIdempotencyKey k2) ∧
    uuidShapeTest (oneSignalIdempotencyKey k) = true ∧
    (resendIdempotencyKey k).length = 40 ∧
    (∀ c ∈ (resendIdempotencyKey k).data, hexCharI c = true) := by
  refine ⟨fun hk => by rw [hk]; exact ⟨rfl, rfl⟩, ?_, ?_, ?_⟩
  · unfold oneSignalIdempotencyKey
    by_cases h : uuidRegexTest k = true
    · rw [if_pos h]
      exact uuidRegexTest_shape k h
    · rw [if_neg h]
      unfold uuidShapeTest
      have hlen := sha1HexChars_length k
      have hx := sha1HexChars_hex k
      have hcon := uuidShape_concat ((sha1HexChars k).take 8)
        (((sha1HexChars k).drop 8).take 4)
        (((sha1HexChars k).drop 12).take 4)
        (((sha1HexChars k).drop 16).take 4)
        (((sha1HexChars k).drop 20).take 12)
        (by simp [List.length_take, hlen])
        (by simp [List.length_take, List.length_drop, hlen])
        (by simp [List.length_take, List.length_drop, hlen])
        (by simp [List.length_take, List.length_drop, hlen])
        (by simp [List.length_take, List.length_drop, hlen])
        (by
          intro c hc
          rcases hc with hc | hc | hc | hc | hc
          · exact hx c (List.take_subset _ _ hc)
          · exact hx c (List.drop_subset _ _ (List.take_subset _ _ hc))
          · exact hx c (List.drop_subset _ _ (List.take_subset _ _ hc))
          · exact hx c (List.drop_subset _ _ (List.take_subset _ _ hc))
          · exact hx c (List.drop_subset _ _ (List.take_subset _ _ hc)))
      simp only [List.append_assoc, List.cons_append] at hcon ⊢
      exact hcon
  · simpa [resendIdempotencyKey, String.length] using sha1HexChars_length k
  · intro c hc
    exact sha1HexChars_hex k c hc

/-- C7 witness: the purity and shape conjuncts at concrete keys. -/
theorem claim_C7_amended_key_derivation_witness :
    oneSignalIdempotencyKey "order-42" = oneSignalIdempotencyKey "order-42" ∧
    uuidShapeTest (oneSignalIdempotencyKey "1") = true := by
  exact ⟨((claim_C7_amended_key_derivation "order-42" "order-42").1 rfl).1,
    (claim_C7_amended_key_derivation "1" "1").2.1⟩

/-! ## C1: classifier temporary/permanent policy -/

/-- C1 counterexample: `invalid_idempotent_request` with HTTP 500.  The
status is in the temporary set and the error name is in neither list, so the
claim requires `isTemporary = true`; the Resend classifier nevertheless
forces `isTemporary = false` in its idempotency special case. -/
theorem claim_C1_counterexample_invalid_idempotent :
    tempStatusCodes.contains 500 = true ∧
    resendPermanentErrors.contains "invalid_idempotent_request" = false ∧
    resendTemporaryErrors.contains "invalid_idempotent_request" = false ∧
    (handleResendError { name := some "invalid_idempotent_request" } 500 none none 0).isTemporary
      = some false := by
  refine ⟨by decide, by decide, by decide, by rfl⟩

/-- C1 amended: both classifiers return `isTemporary = true` exactly when the
HTTP status is in 429/500/502/503/504 or the error name is in the adapter's
temporary list, with the permanent list taking precedence — except that the
Resend classifier additionally forces `invalid_idempotent_request` to
permanent even under a temporary-looking status. -/
theorem claim_C1_amended_classifier_policy (mb : MandrillData) (ms : Int) (rb : ResendBody)
    (rs : Int) (h : Option String) (pc : Option ResendPayload) (now : Int) :
    (handleMandrillError mb ms).isTemporary =
      some ((mandrillTemporaryErrors.contains (mandrillErrorName mb) ||
        tempStatusCodes.contains ms) &&
        !mandrillPermanentErrors.contains (mandrillErrorName mb)) ∧
    (handleResendError rb rs h pc now).isTemporary =
      some ((resendTemporaryErrors.contains (resendErrorName rb) ||
        tempStatusCodes.contains rs) &&
        !resendPermanentErrors.contains (resendErrorName rb) &&
        !(resendErrorName rb == "invalid_idempotent_request")) := by
  constructor
  · simp only [handleMandrillError]
    split_ifs <;> simp_all
  · simp only [handleResendError]
    split_ifs <;> simp_all
    intro hcontra
    decide

/-! ## C5: the DeliveryResult success/id/error invariant -/

def mandrillCECfg : MandrillConfig := { apiKey := "k", fromEmail := "noreply@x.io" }

def mandrillCEInp : MandrillInput := { to_ := ["a@b.c"] }

def mandrillCEObj : MandrillObj :=
  { status := some "rejected", _id := some "rej-1", reject_reason := some "hard-bounce" }

/-- The Mandrill send whose provider answer has per-recipient status
`rejected` with `_id` present. -/
def mandrillCE : DeliveryResult MandrillObj :=
  mandrillSendMail mandrillCECfg mandrillCEInp (fun _ => .netThrow "no downloads")
    (fun _ => .resp 200 (.arr [mandrillCEObj]))

/-- C5 counterexample: a Mandrill send whose provider result has status
`rejected` yields a FAILED `DeliveryResult` that nevertheless carries the
provider-assigned id, violating the claim that no failed result carries an
id. -/
theorem claim_C5_counterexample_rejected_with_id :
    mandrillCE.success = false ∧ mandrillCE.id = some "rej-1" ∧
    mandrillCE.error = some "Message rejected: hard-bounce" := by
  refine ⟨rfl, rfl, rfl⟩

theorem handleMandrillError_failed (b : MandrillData) (s : Int) :
    (handleMandrillError b s).success = false ∧ (handleMandrillError b s).error ≠ none := by
  simp only [handleMandrillError]
  split_ifs <;> simp

theorem mandrillRequest_res (oc : MandrillOutcome) (r : DeliveryResult MandrillObj)
    (h : mandrillRequest oc = .res r) : r.success = false ∧ r.error ≠ none := by
  cases oc with
  | netErr m =>
    simp only [mandrillRequest] at h
    cases h
    simp
  | resp status data =>
    simp only [mandrillRequest] at h
    split at h
    · cases h
      exact handleMandrillError_failed data status
    · cases h

theorem resendClassifier_invariant (rb : ResendBody) (rs : Int) (h : Option String)
    (pc : Option ResendPayload) (now : Int) :
    ((handleResendError rb rs h pc now).success = true →
      (handleResendError rb rs h pc now).id ≠ none ∧
      (handleResendError rb rs h pc now).error = none) ∧
    ((handleResendError rb rs h pc now).success = false →
      (handleResendError rb rs h pc now).error ≠ none ∧
      (handleResendError rb rs h pc now).id = none) := by
  simp only [handleResendError]
  split_ifs <;> simp

theorem mandrillSendMail_success_no_error (cfg : MandrillConfig) (inp : MandrillInput)
    (dl : String → DownloadOutcome) (net : MandrillPayload → MandrillOutcome)
    (h : (mandrillSendMail cfg inp dl net).success = true) :
    (mandrillSendMail cfg inp dl net).error = none := by
  unfold mandrillSendMail at h ⊢
  dsimp only [] at h ⊢
  split at h
  · split_ifs at h
  · revert h
    split
    next r hreq =>
      intro h
      exact absurd h (by simp [(mandrillRequest_res _ r hreq).1])
    next data hreq =>
      split
      · intro h
        cases h
      · split_ifs <;> simp

theorem mandrillSendMail_rejected_result (cfg : MandrillConfig) (inp : MandrillInput)
    (dl : String → DownloadOutcome) (net : MandrillPayload → MandrillOutcome)
    (sr : MandrillObj) (rest : List MandrillObj)
    (hd : inp.data = none)
    (hnet : ∀ q, net q = .resp 200 (.arr (sr :: rest)))
    (hst : sr.status = some "rejected" ∨ sr.status = some "invalid") :
    (mandrillSendMail cfg inp dl net).success = false ∧
    (mandrillSendMail cfg inp dl net).id = sr._id ∧
    (mandrillSendMail cfg inp dl net).error ≠ none := by
  unfold mandrillSendMail
  rw [hd]
  dsimp only [Option.getD]
  simp only [hnet, mandrillRequest]
  rw [if_neg (by simp [MandrillData.statusField]; decide)]
  simp only [List.head?]
  have hcond : (decide (sr.status = some "rejected") || decide (sr.status = some "invalid")) = true := by
    rcases hst with h | h <;> simp [h]
  rw [if_pos hcond]
  simp

/-- C5 amended: the Resend classifier obeys the invariant exactly (success
iff id present and error absent); Mandrill successful sends never carry an
error; but a Mandrill rejected/invalid per-recipient result is a failed
`DeliveryResult` that carries both the error and the provider id. -/
theorem claim_C5_amended_result_invariant (rb : ResendBody) (rs : Int) (h : Option String)
    (pc : Option ResendPayload) (now : Int) (cfg : MandrillConfig) (inp : MandrillInput)
    (dl : String → DownloadOutcome) (net : MandrillPayload → MandrillOutcome)
    (sr : MandrillObj) (rest : List MandrillObj) :
    (((handleResendError rb rs h pc now).success = true →
      (handleResendError rb rs h pc now).id ≠ none ∧
      (handleResendError rb rs h pc now).error = none) ∧
    ((handleResendError rb rs h pc now).success = false →
      (handleResendError rb rs h pc now).error ≠ none ∧
      (handleResendError rb rs h pc now).id = none)) ∧
    ((mandrillSendMail cfg inp dl net).success = true →
      (mandrillSendMail cfg inp dl net).error = none) ∧
    (inp.data = none → (∀ q, net q = .resp 200 (.arr (sr :: rest))) →
      (sr.status = some "rejected" ∨ sr.status = some "invalid") →
      (mandrillSendMail cfg inp dl net).success = false ∧
      (mandrillSendMail cfg inp dl net).id = sr._id ∧
      (mandrillSendMail cfg inp dl net).error ≠ none) := by
  exact ⟨resendClassifier_invariant rb rs h pc now,
    fun hs => mandrillSendMail_success_no_error cfg inp dl net hs,
    fun hd hnet hst => mandrillSendMail_rejected_result cfg inp dl net sr rest hd hnet hst⟩

/-- C5 witness: the invariant conjuncts applied at concrete inputs. -/
theorem claim_C5_amended_result_invariant_witness :
    ((handleResendError { name := some "validation_error" } 400 none none 0).error ≠ none ∧
      (handleResendError { name := some "validation_error" } 400 none none 0).id = none) ∧
    mandrillCE.id = mandrillCEObj._id := by
  constructor
  · exact (claim_C5_amended_result_invariant { name := some "validation_error" } 400 none none 0
      mandrillCECfg mandrillCEInp (fun _ => .netThrow "x")
      (fun _ => .resp 200 (.arr [mandrillCEObj])) mandrillCEObj []).1.2 rfl
  · exact ((claim_C5_amended_result_invariant { name := some "validation_error" } 400 none none 0
      mandrillCECfg mandrillCEInp (fun _ => .netThrow "no downloads")
      (fun _ => .resp 200 (.arr [mandrillCEObj])) mandrillCEObj []).2.2 rfl (fun q => rfl)
      (Or.inl rfl)).2.1


/-! ## C6: webhook verification failures -/

def osCECfg : OSConfig :=
  { appId := "a", apiKey := "k", fromEmail := "f@x.y",
    webhookHeaderKey := some "X-Webhook-Token", webhookHeaderValue := some "secret" }

theorem claim_C6_counterexample_onesignal_throws :
    oneSignalWebhook osCECfg {} [] = .error "Invalid Webhook Header Value" ∧
    oneSignalWebhook osCECfg {} [("x-webhook-token", "wrong")] =
      .error "Invalid Webhook Header Value" := by
  constructor
  · rfl
  · rfl

theorem oneSignalWebhook_auth_throws (cfg : OSConfig) (ev : OSWhEvent) (headers : List (String × String))
    (h : osHeaderAuthFails cfg headers = true) :
    oneSignalWebhook cfg ev headers = .error "Invalid Webhook Header Value" := by
  simp only [oneSignalWebhook, h, if_true]
  rfl

theorem resendWebhook_drop_on_verify_failure (cfg : ResendConfig) (ev : ResendEventVal)
    (headers : List (String × String)) (now : Int) (secret : String)
    (hsec : cfg.webhookSigningSecret = some secret) (hne : secret ≠ "")
    (hv : resendVerify secret ev headers now = none ∨
      resendVerify secret ev headers now = some false) :
    resendWebhook cfg ev headers now = .ok none := by
  unfold resendWebhook
  rw [hsec]
  rcases hv with hv | hv <;> simp [hne, hv] <;> rfl

theorem mandrillWebhook_drop_on_verify_failure (cfg : MandrillConfig) (body headers : List (String × String))
    (parse : String → Option (List MandrillEvent)) (mk mu : String)
    (hk : cfg.webhookKey = some mk) (hu : cfg.webhookUrl = some mu)
    (hkne : mk ≠ "") (hune : mu ≠ "")
    (hv : mandrillVerifyWebhookSignature mk mu body headers = false) :
    mandrillWebhook cfg body headers parse = none := by
  unfold mandrillWebhook
  split
  · rfl
  · split
    · rfl
    · rw [hk, hu]
      simp [hkne, hune, hv]

theorem mandrillVerify_missing_header_false (body headers : List (String × String)) (mk mu : String)
    (h1 : jsGetKey headers "x-mandrill-signature" = none)
    (h2 : jsGetKey headers "X-Mandrill-Signature" = none) :
    mandrillVerifyWebhookSignature mk mu body headers = false := by
  unfold mandrillVerifyWebhookSignature
  rw [h1, h2]
  rfl

/-- C6 amended: the Resend and Mandrill webhooks drop the event (return
`null`) on every verification failure — missing headers, stale timestamp, or
signature mismatch — and never raise; the OneSignal webhook instead THROWS
`Invalid Webhook Header Value` on a header-authentication failure. -/
theorem claim_C6_amended_verification_failures (oscfg : OSConfig) (osev : OSWhEvent)
    (oshdr : List (String × String)) (rcfg : ResendConfig) (rev : ResendEventVal)
    (rhdr : List (String × String)) (now : Int) (secret : String)
    (mcfg : MandrillConfig) (mbody mhdr : List (String × String))
    (parse : String → Option (List MandrillEvent)) (mk mu : String) :
    (osHeaderAuthFails oscfg oshdr = true →
      oneSignalWebhook oscfg osev oshdr = .error "Invalid Webhook Header Value") ∧
    (rcfg.webhookSigningSecret = some secret → secret ≠ "" →
      (resendVerify secret rev rhdr now = none ∨
        resendVerify secret rev rhdr now = some false) →
      resendWebhook rcfg rev rhdr now = .ok none) ∧
    (mcfg.webhookKey = some mk → mcfg.webhookUrl = some mu → mk ≠ "" → mu ≠ "" →
      mandrillVerifyWebhookSignature mk mu mbody mhdr = false →
      mandrillWebhook mcfg mbody mhdr parse = none) ∧
    (jsGetKey mhdr "x-mandrill-signature" = none →
      jsGetKey mhdr "X-Mandrill-Signature" = none →
      mandrillVerifyWebhookSignature mk mu mbody mhdr = false) := by
  exact ⟨fun h => oneSignalWebhook_auth_throws oscfg osev oshdr h,
    fun hs hn hv => resendWebhook_drop_on_verify_failure rcfg rev rhdr now secret hs hn hv,
    fun hk hu hkn hun hv =>
      mandrillWebhook_drop_on_verify_failure mcfg mbody mhdr parse mk mu hk hu hkn hun hv,
    fun h1 h2 => mandrillVerify_missing_header_false mbody mhdr mk mu h1 h2⟩

def resendWhCfg : ResendConfig :=
  { apiKey := "k", fromEmail := "f@x.y", webhookSigningSecret := some "whsec_c2VjcmV0" }

def resendNoWhCfg : ResendConfig := { apiKey := "k", fromEmail := "f@x.y" }

def mandrillWhCfg : MandrillConfig :=
  { apiKey := "k", fromEmail := "f@x.y", webhookKey := some "wk",
    webhookUrl := some "https://t.example/webhook" }

def mandrillNoWhCfg : MandrillConfig := { apiKey := "k", fromEmail := "f@x.y" }

/-- C6 witness: the three webhook behaviours at concrete inputs — the
OneSignal throw, the Resend drop with missing svix headers, and the Mandrill
drop with a missing signature header. -/
theorem claim_C6_amended_verification_failures_witness :
    oneSignalWebhook osCECfg {} [("other", "x")] = .error "Invalid Webhook Header Value" ∧
    resendWebhook resendWhCfg (.objE { type := some "email.delivered" }) [] 1700000000
      = .ok none ∧
    mandrillWebhook mandrillWhCfg [("mandrill_events", "[]")] [] (fun _ => some []) = none := by
  refine ⟨?_, ?_, ?_⟩
  · exact (claim_C6_amended_verification_failures osCECfg {} [("other", "x")]
      resendNoWhCfg (.strE "") [] 0 "s" mandrillNoWhCfg [] [] (fun _ => none) "" "").1 (by rfl)
  · exact (claim_C6_amended_verification_failures osCECfg {} [] resendWhCfg
      (.objE { type := some "email.delivered" }) [] 1700000000 "whsec_c2VjcmV0"
      mandrillNoWhCfg [] [] (fun _ => none) "" "").2.1 rfl (by decide) (Or.inl rfl)
  · exact (claim_C6_amended_verification_failures osCECfg {} [] resendNoWhCfg (.strE "") [] 0 "s"
      mandrillWhCfg [("mandrill_events", "[]")] [] (fun _ => some []) "wk"
      "https://t.example/webhook").2.2.1 rfl rfl (by decide) (by decide)
      ((claim_C6_amended_verification_failures osCECfg {} [] resendNoWhCfg (.strE "") [] 0 "s"
        mandrillWhCfg [("mandrill_events", "[]")] [] (fun _ => some []) "wk"
        "https://t.example/webhook").2.2.2 rfl rfl)

/-! ## C2: sendMail never throws for provider or network failures -/

theorem resendSendMailRequest_fail (cfg : ResendConfig) (payload : ResendPayload)
    (idem : Option String) (net : ResendPayload → ResendOutcome) (now : Int)
    (h : resendOutcomeFails (net payload) = true) :
    (resendSendMail.resendSendMailRequest cfg payload idem net now).1.success = false := by
  unfold resendSendMail.resendSendMailRequest
  cases hoc : net payload with
  | netErr m => simp [resendRequest]
  | resp status body ra =>
    rw [hoc] at h
    simp only [resendOutcomeFails] at h
    simp only [resendRequest]
    rw [if_pos h]
    cases hr : (handleResendError body status ra (some payload) now).success <;>
      simp [hr]

theorem resendSendMail_fail_outcomes (cfg : ResendConfig) (inp : ResendInput)
    (net : ResendPayload → ResendOutcome) (now : Int)
    (hfail : ∀ p, resendOutcomeFails (net p) = true) :
    (resendSendMail cfg inp net now).1.success = false := by
  unfold resendSendMail
  cases inp.data with
  | none => rfl
  | some d =>
    dsimp only []
    split
    · split
      · rfl
      · exact resendSendMailRequest_fail cfg _ inp.idempotencyKey net now (hfail _)
    · exact resendSendMailRequest_fail cfg _ inp.idempotencyKey net now (hfail _)

theorem oneSignalSendMail_fail_outcomes (cfg : OSConfig) (inp : OSInput) (net : OSPayload → OSOutcome)
    (hfail : ∀ p, osOutcomeFails (net p) = true) :
    (oneSignalSendMail cfg inp net).success = false := by
  unfold oneSignalSendMail
  dsimp only []
  cases hoc : net (oneSignalBuildPayload cfg inp) with
  | netErr m =>
    simp [oneSignalRequest]
  | resp status body st ra =>
    have h := hfail (oneSignalBuildPayload cfg inp)
    rw [hoc] at h
    simp only [osOutcomeFails] at h
    simp only [oneSignalRequest]
    rw [if_neg (by simp_all)]
    split_ifs <;> simp

theorem smtpBuildAttachments_error (l : List SmtpAttachment) (e : SmtpError)
    (h : smtpBuildAttachments l = .error e) :
    e = { message := attachmentSecurityMessage, code := some "E_SECURITY",
          responseCode := some 553 } := by
  induction l with
  | nil => simp [smtpBuildAttachments] at h
  | cons a rest ih =>
    simp only [smtpBuildAttachments] at h
    split_ifs at h
    · cases h
      rfl
    · cases hr : smtpBuildAttachments rest with
      | error e2 =>
        rw [hr] at h
        simp only [Except.map] at h
        cases h
        exact ih hr
      | ok l2 =>
        rw [hr] at h
        simp [Except.map] at h

theorem smtpBuildAttachments_ok_of_good (l : List SmtpAttachment)
    (h : ∀ a ∈ l, smtpAttachmentBad a = false) :
    smtpBuildAttachments l = .ok l := by
  induction l with
  | nil => rfl
  | cons a rest ih =>
    simp only [smtpBuildAttachments]
    rw [if_neg (by simp [h a (List.mem_cons_self a rest)])]
    rw [ih (fun x hx => h x (List.mem_cons_of_mem a hx))]
    rfl

theorem smtpSendMail_security_result (cfg : SmtpConfig) (inp : SmtpInput) (net : SmtpMailOptions → SmtpOutcome)
    (d : SmtpData) (l : List SmtpAttachment) (e : SmtpError)
    (hd : inp.data = some d) (ha : d.attachments = some l)
    (he : smtpBuildAttachments l = .error e) :
    smtpSendMail cfg inp net =
      ({ success := false, error := some attachmentSecurityMessage, code := some "E_SECURITY",
         isTemporary := some false, isLocalError := some true }, 0) := by
  unfold smtpSendMail
  rw [hd]
  dsimp only []
  rw [ha]
  dsimp only []
  rw [he, smtpBuildAttachments_error l e he]
  rfl

theorem smtpSendMail_good_attachments_one_call (cfg : SmtpConfig) (inp : SmtpInput) (net : SmtpMailOptions → SmtpOutcome)
    (d : SmtpData) (l : List SmtpAttachment)
    (hd : inp.data = some d) (ha : d.attachments = some l)
    (hgood : ∀ a ∈ l, smtpAttachmentBad a = false) :
    (smtpSendMail cfg inp net).2 = 1 := by
  unfold smtpSendMail
  rw [hd]
  dsimp only []
  rw [ha]
  dsimp only []
  rw [smtpBuildAttachments_ok_of_good l hgood]
  dsimp only []
  split <;> rfl

theorem resendMapAttachments_error (rl : List ResendAttachmentIn) (e : String)
    (h : resendMapAttachments rl = .error e) : e = attachmentSecurityMessage := by
  induction rl with
  | nil => simp [resendMapAttachments] at h
  | cons a rest ih =>
    simp only [resendMapAttachments] at h
    split_ifs at h
    · cases h
      rfl
    · cases hr : resendMapAttachments rest with
      | error e2 =>
        rw [hr] at h
        simp only [Except.map] at h
        cases h
        exact ih hr
      | ok l2 =>
        rw [hr] at h
        simp [Except.map] at h

theorem resendSendMail_security_result (rcfg : ResendConfig) (rinp : ResendInput)
    (rnet : ResendPayload → ResendOutcome) (now : Int)
    (rd : ResendData) (rl : List ResendAttachmentIn) (e : String)
    (hd : rinp.data = some rd) (ha : rd.attachments = some rl)
    (he : resendMapAttachments rl = .error e) :
    resendSendMail rcfg rinp rnet now =
      ({ success := false, error := some ("Unexpected Error: " ++ attachmentSecurityMessage),
         isTemporary := some true }, 0) := by
  unfold resendSendMail
  rw [hd]
  dsimp only []
  rw [ha]
  dsimp only []
  rw [he, resendMapAttachments_error rl e he]

/-- C2: for the Resend and OneSignal adapters, every provider-side or network
failure outcome — rejected fetch, non-2xx response (including the 409
idempotency conflict, whose data-less classifier result trips a caught
`result.data.id` TypeError), or an exception thrown while the request is
being built — ends in a returned `DeliveryResult` with `success = false`;
both models are total functions into `DeliveryResult`, so no such failure
escapes as an exception. -/
theorem claim_C2_sendmail_never_throws (cfg : ResendConfig) (inp : ResendInput)
    (net : ResendPayload → ResendOutcome) (now : Int) (oscfg : OSConfig) (osinp : OSInput)
    (osnet : OSPayload → OSOutcome) :
    ((∀ p, resendOutcomeFails (net p) = true) →
      (resendSendMail cfg inp net now).1.success = false) ∧
    ((∀ p, osOutcomeFails (osnet p) = true) →
      (oneSignalSendMail oscfg osinp osnet).success = false) ∧
    (inp.data = none → (resendSendMail cfg inp net now).1.success = false) := by
  refine ⟨fun h => resendSendMail_fail_outcomes cfg inp net now h,
    fun h => oneSignalSendMail_fail_outcomes oscfg osinp osnet h, fun hd => ?_⟩
  unfold resendSendMail
  rw [hd]

def resendC2Cfg : ResendConfig := { apiKey := "k", fromEmail := "f@x.y" }

def resendC2Inp : ResendInput := { to_ := ["a@b.c"], data := some {} }

def osC2Cfg : OSConfig := { appId := "a", apiKey := "k", fromEmail := "f@x.y" }

/-- C2 witness: a failing fetch for Resend and an HTTP 500 for OneSignal both
come back as failed results, and the 409 idempotency-conflict response also
comes back as a failed result rather than an exception. -/
theorem claim_C2_sendmail_never_throws_witness :
    (resendSendMail resendC2Cfg resendC2Inp (fun _ => .netErr "fetch failed") 0).1.success
      = false ∧
    (oneSignalSendMail osC2Cfg { to_ := "a@b.c" }
      (fun _ => .resp 500 {} "Internal Server Error" none)).success = false ∧
    (resendSendMail resendC2Cfg resendC2Inp
      (fun _ => .resp 409 { name := some "concurrent_idempotent_requests" } none) 0).1.success
      = false := by
  refine ⟨?_, ?_, ?_⟩
  · exact (claim_C2_sendmail_never_throws resendC2Cfg resendC2Inp
      (fun _ => .netErr "fetch failed") 0 osC2Cfg { to_ := "a@b.c" }
      (fun _ => .resp 500 {} "Internal Server Error" none)).1 (fun p => rfl)
  · exact (claim_C2_sendmail_never_throws resendC2Cfg resendC2Inp
      (fun _ => .netErr "fetch failed") 0 osC2Cfg { to_ := "a@b.c" }
      (fun _ => .resp 500 {} "Internal Server Error" none)).2.1 (fun p => rfl)
  · exact (claim_C2_sendmail_never_throws resendC2Cfg resendC2Inp
      (fun _ => .resp 409 { name := some "concurrent_idempotent_requests" } none) 0
      osC2Cfg { to_ := "a@b.c" }
      (fun _ => .resp 500 {} "Internal Server Error" none)).1 (fun p => rfl)

/-! ## C3: attachment scheme checks -/

def resendC3Cfg : ResendConfig := { apiKey := "k", fromEmail := "f@x.y" }

def resendC3Inp : ResendInput :=
  { to_ := ["a@b.c"]
    data := some { attachments := some [{ path := some "ftp://evil/x" }] } }

/-- The Resend send of a message whose attachment reference is `ftp://evil/x`. -/
def resendC3 : DeliveryResult ResendBody × Nat :=
  resendSendMail resendC3Cfg resendC3Inp (fun _ => .netErr "unreachable") 0

/-- C3 counterexample: for the Resend adapter an `ftp://evil/x` attachment is
rejected before any network call (zero fetches), but the result is the
generic catch conversion `isTemporary = true` with NO `isLocalError` flag —
not the `{success:false, isTemporary:false, isLocalError:true}` the
claim requires of every adapter. -/
theorem claim_C3_counterexample_resend_generic_catch :
    resendC3.1.success = false ∧
    resendC3.1.isTemporary = some true ∧
    resendC3.1.isLocalError = none ∧
    resendC3.1.error = some ("Unexpected Error: " ++ attachmentSecurityMessage) ∧
    resendC3.2 = 0 := by
  refine ⟨rfl, rfl, rfl, rfl, rfl⟩

/-- C3 amended: the SMTP adapter returns exactly
`{success:false, isTemporary:false, isLocalError:true}` with zero
transporter calls when an attachment reference has a disallowed scheme, and
reaches the transporter (one call) when all references pass; `https://`
references pass the scheme check in both adapters; the Resend adapter also
rejects before any network call, but reports the failure as a generic
temporary error without `isLocalError`. -/
theorem claim_C3_amended_scheme_check (cfg : SmtpConfig) (inp : SmtpInput)
    (net : SmtpMailOptions → SmtpOutcome) (d : SmtpData) (l : List SmtpAttachment)
    (e : SmtpError) (rcfg : ResendConfig) (rinp : ResendInput)
    (rnet : ResendPayload → ResendOutcome) (now : Int) (rd : ResendData)
    (rl : List ResendAttachmentIn) (e2 : String) :
    (inp.data = some d → d.attachments = some l → smtpBuildAttachments l = .error e →
      smtpSendMail cfg inp net =
        ({ success := false, error := some attachmentSecurityMessage, code := some "E_SECURITY",
           isTemporary := some false, isLocalError := some true }, 0)) ∧
    (inp.data = some d → d.attachments = some l → (∀ a ∈ l, smtpAttachmentBad a = false) →
      (smtpSendMail cfg inp net).2 = 1) ∧
    smtpAttachmentBad { path := some "https://example.com/a.pdf" } = false ∧
    resendAttachmentBad { path := some "https://example.com/a.pdf" } = false ∧
    (rinp.data = some rd → rd.attachments = some rl → resendMapAttachments rl = .error e2 →
      resendSendMail rcfg rinp rnet now =
        ({ success := false, error := some ("Unexpected Error: " ++ attachmentSecurityMessage),
           isTemporary := some true }, 0)) := by
  exact ⟨fun hd ha he => smtpSendMail_security_result cfg inp net d l e hd ha he,
    fun hd ha hg => smtpSendMail_good_attachments_one_call cfg inp net d l hd ha hg,
    by decide, by decide,
    fun hd ha he => resendSendMail_security_result rcfg rinp rnet now rd rl e2 hd ha he⟩

def smtpC3Cfg : SmtpConfig := {}

def smtpC3BadInp : SmtpInput :=
  { to_ := "a@b.c"
    data := some { attachments := some [{ path := some "file:///etc/passwd" }] } }

def smtpC3GoodInp : SmtpInput :=
  { to_ := "a@b.c"
    data := some { attachments := some [{ path := some "https://example.com/a.pdf" }] } }

/-- C3 witness: the SMTP local/permanent security result on
`file:///etc/passwd` with zero transporter calls, one transporter call for
`https://example.com/a.pdf`, and the Resend generic temporary conversion. -/
theorem claim_C3_amended_scheme_check_witness :
    smtpSendMail smtpC3Cfg smtpC3BadInp (fun _ => .sent (some "mid") none) =
      ({ success := false, error := some attachmentSecurityMessage, code := some "E_SECURITY",
         isTemporary := some false, isLocalError := some true }, 0) ∧
    (smtpSendMail smtpC3Cfg smtpC3GoodInp (fun _ => .sent (some "mid") none)).2 = 1 ∧
    resendSendMail resendC3Cfg resendC3Inp (fun _ => .netErr "unreachable") 0 =
      ({ success := false, error := some ("Unexpected Error: " ++ attachmentSecurityMessage),
         isTemporary := some true }, 0) := by
  refine ⟨?_, ?_, ?_⟩
  · exact (claim_C3_amended_scheme_check smtpC3Cfg smtpC3BadInp (fun _ => .sent (some "mid") none)
      { attachments := some [{ path := some "file:///etc/passwd" }] }
      [{ path := some "file:///etc/passwd" }]
      { message := attachmentSecurityMessage, code := some "E_SECURITY", responseCode := some 553 }
      resendC3Cfg resendC3Inp (fun _ => .netErr "unreachable") 0
      { attachments := some [{ path := some "ftp://evil/x" }] }
      [{ path := some "ftp://evil/x" }] attachmentSecurityMessage).1 rfl rfl (by rfl)
  · exact (claim_C3_amended_scheme_check smtpC3Cfg smtpC3GoodInp (fun _ => .sent (some "mid") none)
      { attachments := some [{ path := some "https://example.com/a.pdf" }] }
      [{ path := some "https://example.com/a.pdf" }]
      { message := attachmentSecurityMessage, code := some "E_SECURITY", responseCode := some 553 }
      resendC3Cfg resendC3Inp (fun _ => .netErr "unreachable") 0
      { attachments := some [{ path := some "ftp://evil/x" }] }
      [{ path := some "ftp://evil/x" }] attachmentSecurityMessage).2.1 rfl rfl (by decide)
  · exact (claim_C3_amended_scheme_check smtpC3Cfg smtpC3BadInp (fun _ => .sent (some "mid") none)
      { attachments := some [{ path := some "file:///etc/passwd" }] }
      [{ path := some "file:///etc/passwd" }]
      { message := attachmentSecurityMessage, code := some "E_SECURITY", responseCode := some 553 }
      resendC3Cfg resendC3Inp (fun _ => .netErr "unreachable") 0
      { attachments := some [{ path := some "ftp://evil/x" }] }
      [{ path := some "ftp://evil/x" }] attachmentSecurityMessage).2.2.2.2 rfl rfl (by rfl)


end ThorMail
